import Mathlib

/-!
An embedding of the algorithmic core of the `frontend-babes` repository:

* `src/services/sentenceBuilder.js` — the Sentence Assembler and Autocorrect
  Engine (`addLetter`, `addSpace`, `backspace`, `clear`, `clearWord`,
  `setSentence`, `autoCorrect`, `simpleCorrect`, `levenshteinDistance`,
  `findClosestWord`);
* `src/ai-services/sign-language-detection/services/signLanguageDetector.js` —
  the Confidence Smoother (`smoothGesture`), the Shape Classifier
  (`classifyGesture`, `detectASLLetter` and its geometric helpers) and the
  per-tick driver (`detectGesture`).

Modelling conventions, used throughout:

* JavaScript strings are modelled as `List Char` (named `Str` below); this
  makes the character-level operations of the source (`slice`, `split`,
  regexp run-collapsing) directly definable and provable by induction.
* `Date.now()` is passed in as an explicit rational `now`/`currentTime`
  argument (time injection); all other numbers are rationals.
* `console.log` calls are dropped: they do not affect results, with one
  documented exception noted at `isNShape`.
* A JavaScript `Map`/plain-object counter table is modelled as a total
  function with default value `0`; an absent key and a key stored as `0`
  are indistinguishable in the source's observable behaviour.
* Thrown exceptions (out-of-range landmark accesses) are modelled with
  `Except Unit`.
-/

set_option maxRecDepth 10000

/-- JavaScript strings, modelled as lists of characters. -/
abbrev Str := List Char

/-- Shorthand to write a `Str` from a string literal. -/
def str (s : String) : Str := s.data

/-- JS `s.slice(-n)`: the last `n` characters (the whole string if shorter). -/
def lastN (n : Nat) (l : Str) : Str := l.drop (l.length - n)

/-- JS `toLowerCase()` on one character, restricted to the ASCII range the
source operates on, written as an explicit table so that every proof about
it is by finite case analysis. -/
def jsToLowerChar (c : Char) : Char :=
  match c with
  | 'A' => 'a' | 'B' => 'b' | 'C' => 'c' | 'D' => 'd' | 'E' => 'e'
  | 'F' => 'f' | 'G' => 'g' | 'H' => 'h' | 'I' => 'i' | 'J' => 'j'
  | 'K' => 'k' | 'L' => 'l' | 'M' => 'm' | 'N' => 'n' | 'O' => 'o'
  | 'P' => 'p' | 'Q' => 'q' | 'R' => 'r' | 'S' => 's' | 'T' => 't'
  | 'U' => 'u' | 'V' => 'v' | 'W' => 'w' | 'X' => 'x' | 'Y' => 'y'
  | 'Z' => 'z' | c => c

/-- JS `toUpperCase()` on one ASCII character, as an explicit table. -/
def jsToUpperChar (c : Char) : Char :=
  match c with
  | 'a' => 'A' | 'b' => 'B' | 'c' => 'C' | 'd' => 'D' | 'e' => 'E'
  | 'f' => 'F' | 'g' => 'G' | 'h' => 'H' | 'i' => 'I' | 'j' => 'J'
  | 'k' => 'K' | 'l' => 'L' | 'm' => 'M' | 'n' => 'N' | 'o' => 'O'
  | 'p' => 'P' | 'q' => 'Q' | 'r' => 'R' | 's' => 'S' | 't' => 'T'
  | 'u' => 'U' | 'v' => 'V' | 'w' => 'W' | 'x' => 'X' | 'y' => 'Y'
  | 'z' => 'Z' | c => c

/-- JS `s.toLowerCase()` on the ASCII strings used by the source. -/
def toLowerStr (l : Str) : Str := l.map jsToLowerChar

/-- JS `s.toUpperCase()` on the ASCII strings used by the source. -/
def toUpperStr (l : Str) : Str := l.map jsToUpperChar

/-- JS `word.charAt(0).toUpperCase() + word.slice(1)` (sentence capitalization,
`sentenceBuilder.js` line 246). -/
def capFirst (l : Str) : Str :=
  match l with
  | [] => []
  | c :: rest => jsToUpperChar c :: rest

/-- JS `sentence.split(' ')`: split on every single space, keeping empty
segments; `''.split(' ')` is `['']`. -/
def splitOnSp : Str → List Str
  | [] => [[]]
  | c :: rest =>
    let r := splitOnSp rest
    if c = ' ' then [] :: r
    else
      match r with
      | t :: ts => (c :: t) :: ts
      | [] => [[c]]

/-- JS `words.join(' ')`. -/
def joinSp : List Str → Str
  | [] => []
  | [w] => w
  | w :: ws => w ++ ' ' :: joinSp ws

/-- `true` iff the string contains three or more identical consecutive
characters (the run the triple-letter guard must prevent). -/
def hasTriple : Str → Bool
  | a :: b :: c :: rest => (a = b && b = c) || hasTriple (b :: c :: rest)
  | _ => false

/-- JS regexp replace `/(.)\1{2,}/g` with `'$1$1'` (`simpleCorrect`,
`sentenceBuilder.js` line 381): every maximal run of three or more identical
characters is collapsed to two. -/
def collapseRuns : Str → Str
  | a :: b :: c :: rest =>
    if a = b ∧ b = c then collapseRuns (b :: c :: rest)
    else a :: collapseRuns (b :: c :: rest)
  | l => l

/-- JS `s.includes(sub)`. -/
def containsSub (l sub : Str) : Bool :=
  l.tails.any (fun t => sub.isPrefixOf t)

/-- JS `s.replace(pat, rep)` with a plain-string pattern: replaces the first
occurrence only. -/
def replaceFirst : Str → Str → Str → Str
  | l, pat, rep =>
    if pat.isPrefixOf l then rep ++ l.drop pat.length
    else
      match l with
      | [] => []
      | c :: rest => c :: replaceFirst rest pat rep

/-- JS regexp test `/^[A-Z]$/i.test(letter)` (`addLetter`,
`sentenceBuilder.js` line 184). -/
def isSingleAlpha (l : Str) : Bool :=
  match l with
  | [c] => ('A' ≤ c ∧ c ≤ 'Z') ∨ ('a' ≤ c ∧ c ≤ 'z')
  | _ => false

/-!
## Sentence Assembler and Autocorrect Engine (`src/services/sentenceBuilder.js`)
-/

/-- `this.autoCorrectDict` (`sentenceBuilder.js` lines 16–67), in source
(insertion) order; `Object.keys` iterates it in this order. -/
def autoCorrectDict : List (Str × Str) :=
  [("teh", "the"), ("hte", "the"), ("adn", "and"), ("nad", "and"),
   ("thsi", "this"), ("taht", "that"), ("waht", "what"), ("wiht", "with"),
   ("wnat", "want"), ("hvae", "have"), ("cna", "can"), ("yuo", "you"),
   ("yuor", "your"), ("jsut", "just"), ("dont", "don't"), ("cant", "can't"),
   ("wont", "won't"), ("im", "i'm"), ("ill", "i'll"), ("helo", "hello"),
   ("helllo", "hello"), ("hllo", "hello"), ("thankks", "thanks"),
   ("thanx", "thanks"), ("plz", "please"), ("pls", "please"),
   ("sry", "sorry"), ("srry", "sorry"), ("becuase", "because"),
   ("beacuse", "because"), ("freind", "friend"), ("frend", "friend"),
   ("recieve", "receive"), ("recive", "receive"), ("beleive", "believe"),
   ("belive", "believe"), ("occured", "occurred"), ("seperate", "separate"),
   ("definately", "definitely"), ("tommorrow", "tomorrow"),
   ("tonite", "tonight"), ("untill", "until"), ("thier", "their"),
   ("occassion", "occasion"), ("embarass", "embarrass"), ("realy", "really"),
   ("goverment", "government"), ("enviroment", "environment")
  ].map (fun p => (p.1.data, p.2.data))

/-- `this.commonWords` (`sentenceBuilder.js` lines 70–130) in source
(insertion) order.  The JS `Set` deduplicates repeated entries (`work`,
`call`, `calls`, `called`, `second`) keeping the first position; we keep the
raw literal list — membership is unaffected, and in `findClosestWord` a
duplicate candidate `(v, v)` can never change the fold result because the
update requires a strictly smaller distance. -/
def commonWords : List Str :=
  ["i", "me", "my", "you", "your", "he", "him", "his", "she", "her", "it", "its",
   "we", "us", "our", "they", "them", "their",
   "am", "is", "are", "was", "were", "be", "been", "being",
   "have", "has", "had", "do", "does", "did", "done",
   "will", "would", "should", "could", "can", "may", "might",
   "go", "goes", "went", "come", "comes", "came",
   "get", "gets", "got", "give", "gives", "gave",
   "make", "makes", "made", "take", "takes", "took",
   "see", "sees", "saw", "know", "knows", "knew",
   "think", "thinks", "thought", "want", "wants", "wanted",
   "need", "needs", "needed", "like", "likes", "liked",
   "love", "loves", "loved", "help", "helps", "helped",
   "use", "uses", "used", "work", "works", "worked",
   "try", "tries", "tried", "ask", "asks", "asked",
   "feel", "feels", "felt", "become", "becomes", "became",
   "leave", "leaves", "left", "put", "puts", "call", "calls", "called",
   "the", "a", "an", "and", "or", "but", "if", "as", "of", "at", "by", "for",
   "with", "from", "to", "in", "on", "off", "out", "up", "down",
   "about", "over", "under", "again", "then", "than", "so", "such",
   "what", "when", "where", "who", "whom", "whose", "which", "why", "how",
   "one", "two", "three", "four", "five", "six", "seven", "eight", "nine", "ten",
   "first", "second", "third", "last", "next",
   "today", "tomorrow", "yesterday", "now", "later", "soon", "never",
   "morning", "afternoon", "evening", "night", "day", "week", "month", "year",
   "time", "hour", "minute", "second",
   "good", "great", "bad", "new", "old", "big", "small", "long", "short",
   "high", "low", "hot", "cold", "warm", "cool", "fast", "slow",
   "easy", "hard", "happy", "sad", "nice", "pretty", "beautiful",
   "right", "wrong", "true", "false", "sure", "okay", "ok", "fine",
   "ready", "busy", "free", "full", "empty", "open", "close", "closed",
   "man", "woman", "boy", "girl", "person", "people", "child", "children",
   "friend", "family", "dad", "mom", "parent", "brother", "sister",
   "home", "house", "room", "door", "window", "car", "phone", "computer",
   "food", "water", "work", "school", "place", "thing", "way", "life",
   "world", "hand", "eye", "face", "head", "body", "heart",
   "please", "thank", "thanks", "sorry", "excuse", "welcome", "yes", "no",
   "hello", "hi", "hey", "bye", "goodbye", "goodnight",
   "talk", "speak", "say", "tell", "sign", "show", "look", "watch",
   "hear", "listen", "understand", "mean", "wait", "stop", "start",
   "meet", "call", "video", "chat", "message", "text"
  ].map String.data

/-- `this.autoCorrectDict[word]` — association-list lookup; the JS truthiness
test `if (this.autoCorrectDict[lowerWord])` is `isSome` here since every
stored correction is a non-empty string. -/
def dictLookup (w : Str) : Option Str :=
  (autoCorrectDict.find? (fun p => p.1 = w)).map (·.2)

/-- `this.commonWords.has(word)`. -/
def commonHas (w : Str) : Bool := commonWords.contains w

/-- Inner cell recursion of the `levenshteinDistance` dynamic-programming
matrix (`sentenceBuilder.js` lines 425–437): walking row `i` left to right;
`diag` is `matrix[i-1][j-1]`, `left` is `matrix[i][j-1]`, the head of
`prevRest` is `matrix[i-1][j]`. -/
def levRowAux (bc : Char) : List Char → List Nat → Nat → Nat → List Nat
  | [], _, _, _ => []
  | _ :: _, [], _, _ => []
  | ac :: as_, up :: rest, diag, left =>
    let cell := if bc = ac then diag
                else Nat.min (diag + 1) (Nat.min (left + 1) (up + 1))
    cell :: levRowAux bc as_ rest up cell

/-- One full row of the matrix: row `i1` starts with `matrix[i1][0] = i1`
(first-column initialization, `sentenceBuilder.js` lines 415–417). -/
def levStep (aCh : List Char) (row : List Nat) (bc : Char) (i1 : Nat) : List Nat :=
  match row with
  | [] => []
  | d0 :: rest => i1 :: levRowAux bc aCh rest d0 i1

/-- `levenshteinDistance(a, b)` (`sentenceBuilder.js` lines 408–440): the
final answer is `matrix[b.length][a.length]`. -/
def levenshteinDistance (a b : Str) : Nat :=
  if a.length = 0 then b.length
  else if b.length = 0 then a.length
  else
    let row0 := List.range (a.length + 1)
    let final := (b.foldl (fun st bc => (st.1 + 1, levStep a st.2 bc (st.1 + 1)))
                  ((0 : Nat), row0)).2
    final.getLastD 0

/-- `Math.ceil(word.length * 0.4)` (`findClosestWord`, line 453).  For the
word lengths arising here the floating-point product rounds to the exact
value, so this is `⌈2·len/5⌉` on naturals. -/
def maxDistanceFor (len : Nat) : Nat := (2 * len + 4) / 5

/-- The candidate stream of `findClosestWord`: autocorrect-dictionary keys
first (each paired with its stored correction, lines 456–462), then the
common-words vocabulary (each paired with itself, lines 465–471). -/
def fuzzyCandidates : List (Str × Str) :=
  autoCorrectDict ++ commonWords.map (fun v => (v, v))

/-- One iteration of `findClosestWord`'s scan: update the accumulator
`(closestWord, minDistance)` when `distance <= maxDistance && distance <
minDistance`; `minDistance` starts at `Infinity`, modelled as `none`. -/
def fuzzyStep (w : Str) (maxD : Nat) (acc : Option Str × Option Nat)
    (cand : Str × Str) : Option Str × Option Nat :=
  let d := levenshteinDistance w cand.1
  match acc.2 with
  | none => if d ≤ maxD then (some cand.2, some d) else acc
  | some m => if d ≤ maxD ∧ d < m then (some cand.2, some d) else acc

/-- `findClosestWord(word)` (`sentenceBuilder.js` lines 447–474). -/
def findClosestWord (w : Str) : Option Str :=
  if w.length < 3 then none
  else
    let maxD := maxDistanceFor w.length
    (fuzzyCandidates.foldl (fuzzyStep w maxD) (none, none)).1

/-- The letter-swap table of `simpleCorrect` (`sentenceBuilder.js` lines
384–388), in `Object.entries` (insertion) order. -/
def simpleSwaps : List (Str × Str) :=
  [("ei", "ie"), ("mn", "nm"), ("nm", "mn")].map (fun p => (p.1.data, p.2.data))

/-- The `for…of Object.entries(swaps)` loop of `simpleCorrect`: the first
swap whose application lands in the vocabulary is returned. -/
def simpleSwapLoop (corrected : Str) : List (Str × Str) → Str
  | [] => corrected
  | (wrong, right) :: rest =>
    if containsSub corrected wrong then
      let candidate := replaceFirst corrected wrong right
      if commonHas candidate then candidate
      else simpleSwapLoop corrected rest
    else simpleSwapLoop corrected rest

/-- `simpleCorrect(word)` (`sentenceBuilder.js` lines 378–400). -/
def simpleCorrect (word : Str) : Str :=
  let corrected := collapseRuns word
  simpleSwapLoop corrected simpleSwaps

/-- `autoCorrect(word)` (`sentenceBuilder.js` lines 341–371). -/
def autoCorrect (word : Str) : Str :=
  let lowerWord := toLowerStr word
  match dictLookup lowerWord with
  | some corr => corr
  | none =>
    if commonHas lowerWord then lowerWord
    else
      let simpleCorrection := simpleCorrect lowerWord
      if simpleCorrection ≠ lowerWord then simpleCorrection
      else
        match findClosestWord lowerWord with
        | some fuzzyMatch =>
          if fuzzyMatch ≠ lowerWord then fuzzyMatch else lowerWord
        | none => lowerWord

/-- The mutable fields of the `SentenceBuilder` class (constructor, lines
7–12).  `letterHoldTime`/`spaceHoldTime` are the constants 1500 below. -/
structure SBState where
  currentWord : Str
  sentence : Str
  lastLetter : Str
  lastLetterTimestamp : ℤ
  deriving DecidableEq

/-- The object returned by every assembler operation:
`{ currentWord, sentence, action, correctedWord }`. -/
structure SBResult where
  currentWord : Str
  sentence : Str
  action : String
  correctedWord : Option Str
  deriving DecidableEq

/-- The singleton's initial state. -/
def sbInit : SBState := ⟨[], [], [], 0⟩

/-- `addSpace()` (`sentenceBuilder.js` lines 224–263).  Note that the result
object is built before `currentWord`/`lastLetter` are cleared, so
`correctedWord` compares against the pre-clear word. -/
def addSpace (s : SBState) : SBResult × SBState :=
  if s.currentWord.length = 0 then
    (⟨s.currentWord, s.sentence, "space_ignored", none⟩, s)
  else
    let correctedWord := autoCorrect s.currentWord
    let sentence' :=
      if s.sentence.length > 0 then s.sentence ++ ' ' :: correctedWord
      else capFirst correctedWord
    (⟨[], sentence', "word_completed",
      if correctedWord ≠ s.currentWord then some correctedWord else none⟩,
     { s with currentWord := [], sentence := sentence', lastLetter := [] })

/-- `backspace()` (`sentenceBuilder.js` lines 268–301). -/
def backspace (s : SBState) : SBResult × SBState :=
  if s.currentWord.length > 0 then
    let w' := s.currentWord.dropLast
    (⟨w', s.sentence, "letter_deleted", none⟩, { s with currentWord := w' })
  else if s.sentence.length > 0 then
    let words := splitOnSp s.sentence
    let sentence' := joinSp words.dropLast
    (⟨s.currentWord, sentence', "word_deleted", none⟩,
     { s with sentence := sentence' })
  else
    (⟨s.currentWord, s.sentence, "backspace_ignored", none⟩, s)

/-- `clear()` (`sentenceBuilder.js` lines 306–318). -/
def clear (s : SBState) : SBResult × SBState :=
  (⟨[], [], "cleared", none⟩,
   { s with currentWord := [], sentence := [], lastLetter := [] })

/-- `clearWord()` (`sentenceBuilder.js` lines 323–334). -/
def clearWord (s : SBState) : SBResult × SBState :=
  (⟨[], s.sentence, "word_cleared", none⟩,
   { s with currentWord := [], lastLetter := [] })

/-- `setSentence(sentence)` (`sentenceBuilder.js` lines 494–497). -/
def setSentence (text : Str) (s : SBState) : SBState :=
  { s with sentence := text, currentWord := [] }

/-- `addLetter(letter, confidence)` (`sentenceBuilder.js` lines 139–219);
`Date.now()` is the explicit argument `now`, and the unused `confidence`
parameter is dropped. -/
def addLetter (letter : Str) (now : ℤ) (s : SBState) : SBResult × SBState :=
  let timeSinceLastLetter := now - s.lastLetterTimestamp
  let lastLetterInWord := toUpperStr (lastN 1 s.currentWord)
  let isRepeatingLastLetter := letter = lastLetterInWord
  if isRepeatingLastLetter ∧ timeSinceLastLetter < 2000 then
    (⟨s.currentWord, s.sentence, "duplicate_blocked", none⟩, s)
  else if letter = s.lastLetter ∧ timeSinceLastLetter < 1500 then
    (⟨s.currentWord, s.sentence, "debounced", none⟩, s)
  else if letter = str "SPACE" then addSpace s
  else if letter = str "BACKSPACE" ∨ letter = str "DELETE" then backspace s
  else if letter = str "CLEAR" then clear s
  else if isSingleAlpha letter then
    let lowerLetter := toLowerStr letter
    let lastTwoLetters := lastN 2 s.currentWord
    if lastTwoLetters = lowerLetter ++ lowerLetter then
      (⟨s.currentWord, s.sentence, "triple_prevented", none⟩, s)
    else
      let w' := s.currentWord ++ lowerLetter
      (⟨w', s.sentence, "letter_added", none⟩,
       { s with currentWord := w', lastLetter := letter,
                lastLetterTimestamp := now })
  else
    (⟨s.currentWord, s.sentence, "ignored", none⟩, s)

/-- The assembler's control surface, for stating reachability. -/
inductive SBOp where
  | letter (l : Str) (now : ℤ)
  | space
  | back
  | clr
  | clrWord
  | setSent (text : Str)

/-- Apply one control-surface operation to the state. -/
def runOp (s : SBState) : SBOp → SBState
  | .letter l now => (addLetter l now s).2
  | .space => (addSpace s).2
  | .back => (backspace s).2
  | .clr => (clear s).2
  | .clrWord => (clearWord s).2
  | .setSent t => setSentence t s

/-- Run a sequence of operations from a state. -/
def runOps (s : SBState) (ops : List SBOp) : SBState := ops.foldl runOp s

/-- `Math.max` on rationals, written out so that it evaluates by kernel
reduction (the lattice `⊔` of `ℚ` does not). -/
def jsMax (a b : ℚ) : ℚ := if a ≤ b then b else a

/-- `Math.max` on integers (the smoother's arithmetic is integral). -/
def jsMaxInt (a b : ℤ) : ℤ := if a ≤ b then b else a

/-- `Math.min` on rationals. -/
def jsMin (a b : ℚ) : ℚ := if a ≤ b then a else b

/-- `Math.abs` on rationals. -/
def jsAbs (a : ℚ) : ℚ := if a < 0 then -a else a

/-!
## Confidence Smoother (`signLanguageDetector.js`, constructor lines 21–27
and `smoothGesture` lines 1219–1299)
-/

/-- `this.minConfidenceFrames = 2` (line 23). -/
def minConfidenceFrames : ℤ := 2

/-- `this.gestureDebounceTime = 100` (line 26, milliseconds). -/
def gestureDebounceTime : ℤ := 100

/-- The smoother's persistent state.  The JS `Map` `gestureConfidence` is
modelled as a total function with default `0`: the source's
`if (!map.has(g)) map.set(g, 0)` seeding step is then a no-op, and the decay
loop's restriction to existing entries is immaterial because absent entries
are zero and zero entries are left unchanged by the decay's `confidence > 0`
guard. -/
structure SmootherState where
  gestureConfidence : String → ℤ
  lastGesture : String
  lastGestureTimestamp : ℤ

/-- Point update of the confidence table (`map.set(g, v)`). -/
def setConf (f : String → ℤ) (g : String) (v : ℤ) : String → ℤ :=
  fun x => if x = g then v else f x

/-- Initial smoother state per the constructor: empty confidence map,
`lastGesture = 'none'`, `lastGestureTimestamp = 0`. -/
def smootherInit : SmootherState := ⟨fun _ => 0, "none", 0⟩

/-- `fistLikeGestures` (line 1228). -/
def fistLikeGestures : List String := ["N", "M", "C", "E", "A", "S", "T", "O"]

/-- `fingerGestures` (line 1229). -/
def fingerGestures : List String :=
  ["F", "K", "P", "Q", "R", "U", "V", "W", "X", "H", "B", "G"]

/-- `thumbOverlapGestures` (line 1231). -/
def thumbOverlapGestures : List String := ["N", "M", "P", "K"]

/-- The `bothFistLike || bothFingerGestures || bothThumbOverlap` test used
both for the hard reset (lines 1235–1239) and the debounce skip
(lines 1272–1275). -/
def similarPair (a b : String) : Bool :=
  (fistLikeGestures.contains a && fistLikeGestures.contains b) ||
  (fingerGestures.contains a && fingerGestures.contains b) ||
  (thumbOverlapGestures.contains a && thumbOverlapGestures.contains b)

/-- `smoothGesture(detectedGesture)` (lines 1219–1299); `Date.now()` is the
explicit `currentTime` argument.  Returns the per-tick output — `none`
models the JS `null` "building confidence" sentinel (line 1294) — together
with the updated state.  Note that `currentConfidence` is read *before* the
increment (lines 1247–1248) and that same pre-increment value is compared
against `minConfidenceFrames` (line 1268). -/
def smoothGesture (detectedGesture : String) (currentTime : ℤ)
    (s : SmootherState) : Option String × SmootherState :=
  -- lines 1234–1244: hard reset of the previous gesture's confidence when
  -- switching between similar gestures
  let conf1 :=
    if s.lastGesture ≠ detectedGesture ∧
        similarPair detectedGesture s.lastGesture then
      setConf s.gestureConfidence s.lastGesture 0
    else s.gestureConfidence
  -- lines 1247–1248: read the current confidence, then increment
  let currentConfidence := conf1 detectedGesture
  let conf2 := setConf conf1 detectedGesture (currentConfidence + 1)
  -- lines 1251–1255: aggressive decay of every other positive entry
  let conf3 := fun g =>
    if g ≠ detectedGesture ∧ conf2 g > 0 then jsMaxInt 0 (conf2 g - 2) else conf2 g
  if currentConfidence ≥ minConfidenceFrames then
    if detectedGesture ≠ s.lastGesture then
      let isSimilarSwitch := similarPair detectedGesture s.lastGesture
      let timeSinceLastChange := currentTime - s.lastGestureTimestamp
      if ¬isSimilarSwitch ∧ timeSinceLastChange < gestureDebounceTime then
        -- line 1280: keep returning the last gesture while debouncing
        (some s.lastGesture, { s with gestureConfidence := conf3 })
      else
        -- lines 1283–1284: confirm the switch
        (some detectedGesture,
         ⟨conf3, detectedGesture, currentTime⟩)
    else
      -- line 1286 with no switch: steady state
      (some detectedGesture, { s with gestureConfidence := conf3 })
  else
    if detectedGesture ≠ s.lastGesture then
      -- line 1294: new gesture still accumulating — suppress stale output
      (none, { s with gestureConfidence := conf3 })
    else
      -- line 1298: same gesture below threshold
      (some s.lastGesture, { s with gestureConfidence := conf3 })

/-!
## Shape Classifier (`signLanguageDetector.js` lines 155–351 and 452–1192)

Numeric modelling: coordinates are rationals.  `Math.sqrt`-based distance
*comparisons against a single threshold* are modelled exactly through the
squared distance (`√d ⋈ c  ↔  d ⋈ c²` for nonnegative `c`), so every
individually-thresholded geometric test below is an exact translation.
The few tests that threshold an *average of several distances*
(`isCShape`, `isMShape`, `isNShape`, `isFShape`) use `ratSqrt`, a rational
square root that is exact on perfect squares and a floor approximation
elsewhere — `Math.sqrt` is itself an approximation in the source, no theorem
in this file depends on the value of such a test away from a concrete input,
and every concrete input used by a theorem is chosen so that each comparison
is decided identically by the approximation and by the exact real square
root.  Likewise the `atan2`-in-degrees direction windows are translated to
their exact sector characterizations (rational for the 45°/135°-style
boundaries, quadratically exact for 30°/150°, and with an explicitly-noted
rational stand-in for `tan 10°` in `isKShape`, whose value no theorem
depends on).
-/

/-- A landmark point; the `name` field of the source is dropped (helpers
access points by index only). -/
structure Pt where
  x : ℚ
  y : ℚ
  z : ℚ
  deriving DecidableEq

/-- A converted keypoint (`classifyGesture` lines 268–276): normalized
image-space coordinates plus the stored pixel coordinates. -/
structure ConvPt where
  x : ℚ
  y : ℚ
  z : ℚ
  xPixel : ℚ
  yPixel : ℚ
  deriving DecidableEq

/-- One detected hand as consumed by `classifyGesture`: the 3D world
keypoints and the 2D fallback keypoints (detection score and handedness are
not read by the classifier). -/
structure Hand where
  keypoints3D : List Pt
  keypoints : List Pt
  deriving DecidableEq

/-- Squared planar distance; `Math.sqrt(Math.pow(a.x-b.x,2)+Math.pow(a.y-b.y,2)) ⋈ c`
is modelled as `dist2 a b ⋈ c²`. -/
def dist2 (p q : Pt) : ℚ := (p.x - q.x)^2 + (p.y - q.y)^2

/-- Fuel-based integer square root (floor), structurally recursive so that
it evaluates by kernel reduction; 64 units of fuel are exact for every
operand below `4^64`. -/
def sqrtFuel : Nat → Nat → Nat
  | 0, _ => 0
  | fuel + 1, n =>
    if n < 2 then n
    else
      let s := 2 * sqrtFuel fuel (n / 4)
      if (s + 1) * (s + 1) ≤ n then s + 1 else s

/-- Rational square root: exact on perfect squares, floor approximation of
`√q` otherwise (see the section comment). -/
def ratSqrt (q : ℚ) : ℚ :=
  if q ≤ 0 then 0 else (sqrtFuel 64 (q.num.toNat * q.den) : ℚ) / (q.den : ℚ)

/-- Planar distance via `ratSqrt`, used only where the source averages
several distances before thresholding. -/
def distApx (p q : Pt) : ℚ := ratSqrt (dist2 p q)

/-- `keypoints[i]` followed by a property access: JS throws a `TypeError`
when the index is out of range (the element is `undefined`), modelled as
`Except.error`. -/
def kp (l : List Pt) (i : Nat) : Except Unit Pt :=
  match l.get? i with
  | some p => .ok p
  | none => .error ()

/-- `|atan2(dy,dx)·180/π| < 30 ∨ ||atan2(dy,dx)·180/π| − 180| < 30`
(`isGShape` line 855), as an exact sector test: `tan²30° = 1/3`, so the open
horizontal double-cone is `3·dy² < dx²` on either side of the y-axis (with
`atan2(0,0) = 0` making the origin horizontal). -/
def dirHorizontal30 (dx dy : ℚ) : Bool :=
  decide ((0 < dx ∧ 3 * dy^2 < dx^2) ∨ (dx = 0 ∧ dy = 0) ∨
          (dx < 0 ∧ 3 * dy^2 < dx^2))

/-- Rational stand-in for `tan 10°` (≈ 0.1763270); see the section comment. -/
def tan10Apx : ℚ := 176327 / 1000000

/-- The `isKShape` "up/forward" window (lines 888–889):
`(θ < −10 ∧ θ > −135) ∨ (θ > 10 ∧ θ < 45)` for `θ = atan2(dy,dx)` in
degrees, as two open-sector cross-product tests (each sector is narrower
than 180°). -/
def dirKWindow (dx dy : ℚ) : Bool :=
  decide ((dx - dy > 0 ∧ dy < -(dx * tan10Apx)) ∨
          (dy > dx * tan10Apx ∧ dx > dy))

/-- `45 < atan2(dy,dx)·180/π < 135` (`isPShape` lines 921–922, `isQShape`
line 947): the open downward sector between the 45° and 135° rays. -/
def dirBetween45And135 (dx dy : ℚ) : Bool :=
  decide (dy - dx > 0 ∧ dx + dy > 0)

/-- Exact decision of `√3·dy > dx`. -/
def sqrt3MulGT (dy dx : ℚ) : Bool :=
  if 0 ≤ dy then (if dx < 0 then true else decide (3 * dy^2 > dx^2))
  else decide (dx < 0 ∧ dx^2 > 3 * dy^2)

/-- `30 < atan2(dy,dx)·180/π < 150` (`isQShape` thumb window, line 948):
the sector between the 30° and 150° rays, via exact `√3` comparisons. -/
def dirBetween30And150 (dx dy : ℚ) : Bool :=
  sqrt3MulGT dy dx && sqrt3MulGT dy (-dx)

/-- `isThumbAcrossPalm(keypoints)` (lines 625–641). -/
def isThumbAcrossPalm (l : List Pt) : Except Unit Bool := do
  let thumbTip ← kp l 4
  let palmBase ← kp l 0
  let indexBase ← kp l 5
  let middleBase ← kp l 9
  let xDistance := jsAbs (thumbTip.x - palmBase.x)
  let yPosition := thumbTip.y
  let avgFingerBaseY := (indexBase.y + middleBase.y) / 2
  pure (decide (xDistance < 50 ∧ jsAbs (yPosition - avgFingerBaseY) < 40))

/-- `isThumbToSide(keypoints)` (lines 643–658); the source also reads
`keypoints[2]` into `thumbBase` but never dereferences it, so that access
cannot throw and is omitted. -/
def isThumbToSide (l : List Pt) : Except Unit Bool := do
  let thumbTip ← kp l 4
  let indexBase ← kp l 5
  let palmBase ← kp l 0
  let xDiff := jsAbs (thumbTip.x - indexBase.x)
  let thumbExtension := jsAbs (thumbTip.x - palmBase.x)
  pure (decide (xDiff > 40 ∧ thumbExtension > 35))

/-- `isDShape(keypoints)` (lines 660–707). -/
def isDShape (l : List Pt) : Except Unit Bool := do
  let thumbTip ← kp l 4
  let middleTip ← kp l 12
  let ringTip ← kp l 16
  let pinkyTip ← kp l 20
  let fingersBunched :=
    decide (dist2 middleTip ringTip < 625 ∧ dist2 ringTip pinkyTip < 625)
  let thumbTouchingClosedFingers :=
    decide (dist2 thumbTip middleTip < 1225 ∨ dist2 thumbTip ringTip < 1225 ∨
            dist2 thumbTip pinkyTip < 1225)
  pure (fingersBunched && thumbTouchingClosedFingers)

/-- `isThumbTouchingFingers(keypoints)` (lines 709–719). -/
def isThumbTouchingFingers (l : List Pt) : Except Unit Bool := do
  let thumbTip ← kp l 4
  let middleTip ← kp l 12
  pure (decide (dist2 thumbTip middleTip < 900))

/-- `isThumbInFront(keypoints)` (lines 721–736); the conditional
`thumbTip.z && indexMCP.z ? … : 0` tests JS truthiness, i.e. `z ≠ 0`. -/
def isThumbInFront (l : List Pt) : Except Unit Bool := do
  let thumbTip ← kp l 4
  let indexMCP ← kp l 5
  let palmBase ← kp l 0
  let zDiff := if thumbTip.z ≠ 0 ∧ indexMCP.z ≠ 0 then thumbTip.z - indexMCP.z else 0
  let xDiff := jsAbs (thumbTip.x - palmBase.x)
  pure (decide (zDiff > 1/100 ∧ xDiff < 60))

/-- `isCShape(keypoints)` (lines 738–764); the two thresholds apply to
averages of four distances, so `distApx` is used (see section comment). -/
def isCShape (l : List Pt) : Except Unit Bool := do
  let indexTip ← kp l 8
  let middleTip ← kp l 12
  let ringTip ← kp l 16
  let pinkyTip ← kp l 20
  let indexBase ← kp l 5
  let middleBase ← kp l 9
  let ringBase ← kp l 13
  let pinkyBase ← kp l 17
  let thumbTip ← kp l 4
  let avgDistance := (distApx indexTip indexBase + distApx middleTip middleBase +
                      distApx ringTip ringBase + distApx pinkyTip pinkyBase) / 4
  let avgDistToThumb := (distApx indexTip thumbTip + distApx middleTip thumbTip +
                         distApx ringTip thumbTip + distApx pinkyTip thumbTip) / 4
  let isCurved := decide (avgDistance > 25 ∧ avgDistance < 45)
  let fingersAway := decide (avgDistToThumb > 40)
  pure (isCurved && fingersAway)

/-- `isFShape(keypoints)` (lines 778–827): the minimum thumb-to-index-joint
distance is thresholded exactly (a minimum commutes with the square root);
the average three-finger extension uses `distApx`. -/
def isFShape (l : List Pt) : Except Unit Bool := do
  let thumbTip ← kp l 4
  let indexTip ← kp l 8
  let indexDIP ← kp l 7
  let indexPIP ← kp l 6
  let indexMCP ← kp l 5
  let middleTip ← kp l 12
  let ringTip ← kp l 16
  let pinkyTip ← kp l 20
  let palmBase ← kp l 0
  let minDist2 := jsMin (jsMin (dist2 thumbTip indexTip) (dist2 thumbTip indexDIP))
                      (jsMin (dist2 thumbTip indexPIP) (dist2 thumbTip indexMCP))
  let thumbTouchesIndex := decide (minDist2 < 900)
  let avgExtension := (distApx middleTip palmBase + distApx ringTip palmBase +
                       distApx pinkyTip palmBase) / 3
  let fingersExtended := decide (avgExtension > 75)
  pure (thumbTouchesIndex && fingersExtended)

/-- `isOShape(keypoints)` (lines 829–839). -/
def isOShape (l : List Pt) : Except Unit Bool := do
  let thumbTip ← kp l 4
  let indexTip ← kp l 8
  pure (decide (dist2 thumbTip indexTip < 1225))

/-- `isGShape(keypoints, indexExt, thumbExt)` (lines 841–863); the source
also reads `keypoints[2]` into `thumbBase` but never dereferences it. -/
def isGShape (l : List Pt) (indexExt thumbExt : Bool) : Except Unit Bool :=
  if ¬indexExt ∨ ¬thumbExt then pure false
  else do
    let indexTip ← kp l 8
    let indexBase ← kp l 5
    let thumbTip ← kp l 4
    let indexHorizontal :=
      dirHorizontal30 (indexTip.x - indexBase.x) (indexTip.y - indexBase.y)
    let parallel := decide (jsAbs (indexTip.y - thumbTip.y) < 50)
    pure (parallel && indexHorizontal)

/-- `areFingersTogether(keypoints, f1, f2)` (lines 984–994). -/
def areFingersTogether (l : List Pt) (f1 f2 : Nat) : Except Unit Bool := do
  let tip1 ← kp l f1
  let tip2 ← kp l f2
  pure (decide (dist2 tip1 tip2 < 400))

/-- `isHShape(keypoints)` (lines 865–868). -/
def isHShape (l : List Pt) : Except Unit Bool :=
  areFingersTogether l 8 12

/-- `isKShape(keypoints)` (lines 870–894). -/
def isKShape (l : List Pt) : Except Unit Bool := do
  let indexTip ← kp l 8
  let indexBase ← kp l 5
  let middleTip ← kp l 12
  let middleBase ← kp l 9
  let indexMiddleDist := jsAbs (indexTip.x - middleTip.x)
  let isValid := decide (indexMiddleDist > 10 ∧ indexMiddleDist < 50)
  let indexPointingUp :=
    dirKWindow (indexTip.x - indexBase.x) (indexTip.y - indexBase.y)
  let middlePointingUp :=
    dirKWindow (middleTip.x - middleBase.x) (middleTip.y - middleBase.y)
  pure (isValid && (indexPointingUp && middlePointingUp))

/-- `isLShape(keypoints)` (lines 896–906). -/
def isLShape (l : List Pt) : Except Unit Bool := do
  let indexTip ← kp l 8
  let thumbTip ← kp l 4
  let wrist ← kp l 0
  pure (decide (jsAbs (indexTip.y - wrist.y) > 60 ∧ jsAbs (thumbTip.x - wrist.x) > 40))

/-- `isPShape(keypoints)` (lines 908–931). -/
def isPShape (l : List Pt) : Except Unit Bool := do
  let indexTip ← kp l 8
  let indexBase ← kp l 5
  let middleTip ← kp l 12
  let middleBase ← kp l 9
  let wrist ← kp l 0
  let indexPointingDown :=
    dirBetween45And135 (indexTip.x - indexBase.x) (indexTip.y - indexBase.y)
  let middlePointingDown :=
    dirBetween45And135 (middleTip.x - middleBase.x) (middleTip.y - middleBase.y)
  let belowWrist := decide (indexTip.y > wrist.y ∧ middleTip.y > wrist.y)
  pure ((indexPointingDown && middlePointingDown) && belowWrist)

/-- `isQShape(keypoints)` (lines 933–958). -/
def isQShape (l : List Pt) : Except Unit Bool := do
  let indexTip ← kp l 8
  let indexBase ← kp l 5
  let thumbTip ← kp l 4
  let thumbBase ← kp l 2
  let wrist ← kp l 0
  let indexPointingDown :=
    dirBetween45And135 (indexTip.x - indexBase.x) (indexTip.y - indexBase.y)
  let thumbPointingDown :=
    dirBetween30And150 (thumbTip.x - thumbBase.x) (thumbTip.y - thumbBase.y)
  let belowWrist := decide (indexTip.y > wrist.y ∧ thumbTip.y > wrist.y)
  pure ((indexPointingDown && thumbPointingDown) && belowWrist)

/-- `isRShape(keypoints, indexExt, middleExt)` (lines 960–969). -/
def isRShape (l : List Pt) (indexExt middleExt : Bool) : Except Unit Bool :=
  if ¬indexExt ∨ ¬middleExt then pure false
  else do
    let indexTip ← kp l 8
    let middleTip ← kp l 12
    pure (decide (jsAbs (indexTip.x - middleTip.x) < 15))

/-- `isTShape(keypoints)` (lines 971–982). -/
def isTShape (l : List Pt) : Except Unit Bool := do
  let thumbTip ← kp l 4
  let indexBase ← kp l 5
  let middleBase ← kp l 9
  pure (decide (thumbTip.x > jsMin indexBase.x middleBase.x ∧
                thumbTip.x < jsMax indexBase.x middleBase.x))

/-- `isEShape(keypoints)` (lines 996–1029); `tip.z && thumbTip.z && …` is JS
truthiness, i.e. both `z ≠ 0`; the minimum fingertip-to-thumb distance is
thresholded exactly through the squared distances. -/
def isEShape (l : List Pt) : Except Unit Bool := do
  let thumbTip ← kp l 4
  let indexTip ← kp l 8
  let middleTip ← kp l 12
  let ringTip ← kp l 16
  let pinkyTip ← kp l 20
  let thumbAcrossPalm ← isThumbAcrossPalm l
  let tips := [indexTip, middleTip, ringTip, pinkyTip]
  let fingersBehind :=
    decide ((tips.filter (fun tip =>
      tip.z ≠ 0 ∧ thumbTip.z ≠ 0 ∧ tip.z > thumbTip.z + 1/200)).length ≥ 3)
  let notTouchingThumb :=
    decide (tips.all (fun tip => dist2 tip thumbTip > 900))
  pure (thumbAcrossPalm && (fingersBehind || notTouchingThumb))

/-- `isMShape(keypoints)` (lines 1031–1071): the average distance uses
`distApx`, the minimum is exact through squared distances, and the
`f.z !== undefined` guards are vacuous here since `z` is total. -/
def isMShape (l : List Pt) : Except Unit Bool := do
  let thumbTip ← kp l 4
  let indexTip ← kp l 8
  let middleTip ← kp l 12
  let ringTip ← kp l 16
  let avgDistance := (distApx indexTip thumbTip + distApx middleTip thumbTip +
                      distApx ringTip thumbTip) / 3
  let minDist2 := jsMin (dist2 indexTip thumbTip)
                      (jsMin (dist2 middleTip thumbTip) (dist2 ringTip thumbTip))
  let fingersInFrontCount :=
    ([indexTip, middleTip, ringTip].filter
      (fun tip => tip.z - thumbTip.z > 1/200)).length
  let fingersInFront := decide (fingersInFrontCount ≥ 2)
  pure (decide (avgDistance < 28) && (decide (minDist2 < 484) && fingersInFront))

/-- `isNShape(keypoints)` (lines 1073–1109): average via `distApx`, minimum
exact; the source also reads `keypoints[16]` into `ringTip` without ever
dereferencing it, and dereferences `thumbTip.z`/`indexTip.z`/`middleTip.z`
only inside `console.log` template strings which are dropped here. -/
def isNShape (l : List Pt) : Except Unit Bool := do
  let thumbTip ← kp l 4
  let indexTip ← kp l 8
  let middleTip ← kp l 12
  let avgDist := (distApx indexTip thumbTip + distApx middleTip thumbTip) / 2
  let minDist2 := jsMin (dist2 indexTip thumbTip) (dist2 middleTip thumbTip)
  let fingersAtSimilarDepth :=
    ([jsAbs (indexTip.z - thumbTip.z), jsAbs (middleTip.z - thumbTip.z)].filter
      (fun d => d < 3/100)).length
  let depthCheck := decide (fingersAtSimilarDepth ≥ 1)
  pure (decide (avgDist < 35) && (decide (minDist2 < 900) && depthCheck))

/-- `isXShape(keypoints, indexExt)` (lines 1111–1132):
`tipToMid < midToBase * 1.2` is exact through squared distances
(`tipToMid² < 1.44·midToBase²`). -/
def isXShape (l : List Pt) (indexExt : Bool) : Except Unit Bool :=
  if ¬indexExt then pure false
  else do
    let indexTip ← kp l 8
    let indexPIP ← kp l 6
    let indexMCP ← kp l 5
    pure (decide (dist2 indexTip indexPIP < (36/25) * dist2 indexPIP indexMCP))

/-- The `fingerTips` index table of `isFingerExtended` (lines 1135–1141). -/
def fingerTipIdx : String → Option Nat
  | "thumb" => some 4
  | "index" => some 8
  | "middle" => some 12
  | "ring" => some 16
  | "pinky" => some 20
  | _ => none

/-- The `fingerBase` index table of `isFingerExtended` (lines 1143–1149). -/
def fingerBaseIdx : String → Option Nat
  | "thumb" => some 2
  | "index" => some 5
  | "middle" => some 9
  | "ring" => some 13
  | "pinky" => some 17
  | _ => none

/-- `isFingerExtended(keypoints, fingerName)` (lines 1134–1192): a missing
tip or base keypoint is guarded (`!keypoints[tipIndex]`) and yields `false`
rather than an error; thumb threshold 25, other fingers 30. -/
def isFingerExtended (l : List Pt) (fingerName : String) : Bool :=
  match fingerTipIdx fingerName, fingerBaseIdx fingerName with
  | some ti, some bi =>
    match l.get? ti, l.get? bi with
    | some tip, some base =>
      if fingerName = "thumb" then decide (dist2 tip base > 625)
      else decide (dist2 tip base > 900)
    | _, _ => false
  | _, _ => false

/-- The `detectASLLetter` cascade (source lines 452–621) is formalized as a
chain of one function per check, each falling through to the next; chaining
them in order reproduces the source's single top-to-bottom,
first-match-wins list exactly, including which shape helpers are evaluated
(and hence can throw) under which finger-flag guards.  Arguments are the
pixel keypoints, the five extension flags, and the unconditionally computed
`thumbAcrossPalm` (line 454).  This is the final `Z` check (line 616) and
the `'unknown'` fall-through (line 620). -/
def aslZ (l : List Pt)
    (thumbExt indexExt middleExt ringExt pinkyExt tap : Bool) :
    Except Unit String :=
  if indexExt && !middleExt && !ringExt && !pinkyExt && !thumbExt then
    .ok "Z"
  else .ok "unknown"

/-- `Y` check (line 611). -/
def aslY (l : List Pt)
    (thumbExt indexExt middleExt ringExt pinkyExt tap : Bool) :
    Except Unit String :=
  if thumbExt && !indexExt && !middleExt && !ringExt && pinkyExt then
    .ok "Y"
  else aslZ l thumbExt indexExt middleExt ringExt pinkyExt tap

/-- `X` check (line 606, `isXShape` evaluated unconditionally). -/
def aslX (l : List Pt)
    (thumbExt indexExt middleExt ringExt pinkyExt tap : Bool) :
    Except Unit String :=
  isXShape l indexExt >>= fun x =>
    if x then .ok "X"
    else aslY l thumbExt indexExt middleExt ringExt pinkyExt tap

/-- `W` check (line 601). -/
def aslW (l : List Pt)
    (thumbExt indexExt middleExt ringExt pinkyExt tap : Bool) :
    Except Unit String :=
  if indexExt && middleExt && ringExt && !pinkyExt && !thumbExt then
    .ok "W"
  else aslX l thumbExt indexExt middleExt ringExt pinkyExt tap

/-- `V` check (line 596; `areFingersTogether` only runs under the flags). -/
def aslV (l : List Pt)
    (thumbExt indexExt middleExt ringExt pinkyExt tap : Bool) :
    Except Unit String :=
  if indexExt && middleExt && !ringExt && !pinkyExt then
    areFingersTogether l 8 12 >>= fun v =>
      if !v then .ok "V"
      else aslW l thumbExt indexExt middleExt ringExt pinkyExt tap
  else aslW l thumbExt indexExt middleExt ringExt pinkyExt tap

/-- `U` check (line 591). -/
def aslU (l : List Pt)
    (thumbExt indexExt middleExt ringExt pinkyExt tap : Bool) :
    Except Unit String :=
  if indexExt && middleExt && !ringExt && !pinkyExt then
    areFingersTogether l 8 12 >>= fun u =>
      if u then .ok "U"
      else aslV l thumbExt indexExt middleExt ringExt pinkyExt tap
  else aslV l thumbExt indexExt middleExt ringExt pinkyExt tap

/-- `T` check (line 586, `isTShape` evaluated unconditionally). -/
def aslT (l : List Pt)
    (thumbExt indexExt middleExt ringExt pinkyExt tap : Bool) :
    Except Unit String :=
  isTShape l >>= fun t =>
    if t then .ok "T"
    else aslU l thumbExt indexExt middleExt ringExt pinkyExt tap

/-- Second `S` check (line 581). -/
def aslS2 (l : List Pt)
    (thumbExt indexExt middleExt ringExt pinkyExt tap : Bool) :
    Except Unit String :=
  if !indexExt && !middleExt && !ringExt && !pinkyExt then
    isThumbInFront l >>= fun s =>
      if s then .ok "S"
      else aslT l thumbExt indexExt middleExt ringExt pinkyExt tap
  else aslT l thumbExt indexExt middleExt ringExt pinkyExt tap

/-- `R` check (line 576, `isRShape` evaluated unconditionally — its own
flag guard is inside the helper). -/
def aslR (l : List Pt)
    (thumbExt indexExt middleExt ringExt pinkyExt tap : Bool) :
    Except Unit String :=
  isRShape l indexExt middleExt >>= fun r =>
    if r then .ok "R"
    else aslS2 l thumbExt indexExt middleExt ringExt pinkyExt tap

/-- `O` check (line 571, unconditional). -/
def aslO (l : List Pt)
    (thumbExt indexExt middleExt ringExt pinkyExt tap : Bool) :
    Except Unit String :=
  isOShape l >>= fun o =>
    if o then .ok "O"
    else aslR l thumbExt indexExt middleExt ringExt pinkyExt tap

/-- `C` check (line 566, unconditional). -/
def aslC (l : List Pt)
    (thumbExt indexExt middleExt ringExt pinkyExt tap : Bool) :
    Except Unit String :=
  isCShape l >>= fun c =>
    if c then .ok "C"
    else aslO l thumbExt indexExt middleExt ringExt pinkyExt tap

/-- `N` check (line 560). -/
def aslN (l : List Pt)
    (thumbExt indexExt middleExt ringExt pinkyExt tap : Bool) :
    Except Unit String :=
  if !indexExt && !middleExt && !ringExt && !pinkyExt then
    isNShape l >>= fun n =>
      if n then .ok "N"
      else aslC l thumbExt indexExt middleExt ringExt pinkyExt tap
  else aslC l thumbExt indexExt middleExt ringExt pinkyExt tap

/-- `L` check (line 553). -/
def aslL (l : List Pt)
    (thumbExt indexExt middleExt ringExt pinkyExt tap : Bool) :
    Except Unit String :=
  if indexExt && thumbExt && !middleExt && !ringExt && !pinkyExt then
    isLShape l >>= fun lsh =>
      if lsh then .ok "L"
      else aslN l thumbExt indexExt middleExt ringExt pinkyExt tap
  else aslN l thumbExt indexExt middleExt ringExt pinkyExt tap

/-- `I` check (line 547). -/
def aslI (l : List Pt)
    (thumbExt indexExt middleExt ringExt pinkyExt tap : Bool) :
    Except Unit String :=
  if !indexExt && !middleExt && !ringExt && pinkyExt && tap then .ok "I"
  else aslL l thumbExt indexExt middleExt ringExt pinkyExt tap

/-- `K` check (lines 538–544; `isKShape` is computed unconditionally into
`kShapeValid` before the flag test). -/
def aslK (l : List Pt)
    (thumbExt indexExt middleExt ringExt pinkyExt tap : Bool) :
    Except Unit String :=
  isKShape l >>= fun kShapeValid =>
    if indexExt && middleExt && !ringExt && !pinkyExt && kShapeValid then
      .ok "K"
    else aslI l thumbExt indexExt middleExt ringExt pinkyExt tap

/-- `P` check (line 531). -/
def aslP (l : List Pt)
    (thumbExt indexExt middleExt ringExt pinkyExt tap : Bool) :
    Except Unit String :=
  if indexExt && middleExt && !ringExt && !pinkyExt then
    isPShape l >>= fun p =>
      if p then .ok "P"
      else aslK l thumbExt indexExt middleExt ringExt pinkyExt tap
  else aslK l thumbExt indexExt middleExt ringExt pinkyExt tap

/-- `G` check (line 524). -/
def aslG (l : List Pt)
    (thumbExt indexExt middleExt ringExt pinkyExt tap : Bool) :
    Except Unit String :=
  if indexExt && thumbExt && !middleExt && !ringExt && !pinkyExt then
    isGShape l indexExt thumbExt >>= fun g =>
      if g then .ok "G"
      else aslP l thumbExt indexExt middleExt ringExt pinkyExt tap
  else aslP l thumbExt indexExt middleExt ringExt pinkyExt tap

/-- `Q` check (line 518). -/
def aslQ (l : List Pt)
    (thumbExt indexExt middleExt ringExt pinkyExt tap : Bool) :
    Except Unit String :=
  if indexExt && thumbExt && !middleExt && !ringExt && !pinkyExt then
    isQShape l >>= fun q =>
      if q then .ok "Q"
      else aslG l thumbExt indexExt middleExt ringExt pinkyExt tap
  else aslG l thumbExt indexExt middleExt ringExt pinkyExt tap

/-- `H` check (line 512). -/
def aslH (l : List Pt)
    (thumbExt indexExt middleExt ringExt pinkyExt tap : Bool) :
    Except Unit String :=
  if indexExt && middleExt && !ringExt && !pinkyExt then
    isHShape l >>= fun hh =>
      if hh then .ok "H"
      else aslQ l thumbExt indexExt middleExt ringExt pinkyExt tap
  else aslQ l thumbExt indexExt middleExt ringExt pinkyExt tap

/-- `F` check (line 505). -/
def aslF (l : List Pt)
    (thumbExt indexExt middleExt ringExt pinkyExt tap : Bool) :
    Except Unit String :=
  if middleExt && ringExt && pinkyExt && !indexExt then
    isFShape l >>= fun f =>
      if f then .ok "F"
      else aslH l thumbExt indexExt middleExt ringExt pinkyExt tap
  else aslH l thumbExt indexExt middleExt ringExt pinkyExt tap

/-- `B` check (line 500). -/
def aslB (l : List Pt)
    (thumbExt indexExt middleExt ringExt pinkyExt tap : Bool) :
    Except Unit String :=
  if indexExt && middleExt && ringExt && pinkyExt && tap then .ok "B"
  else aslF l thumbExt indexExt middleExt ringExt pinkyExt tap

/-- `D` check (line 494) — the first check after the closed-fist block. -/
def aslD (l : List Pt)
    (thumbExt indexExt middleExt ringExt pinkyExt tap : Bool) :
    Except Unit String :=
  if indexExt && !middleExt && !ringExt && !pinkyExt then
    isDShape l >>= fun d =>
      if d then .ok "D"
      else aslB l thumbExt indexExt middleExt ringExt pinkyExt tap
  else aslB l thumbExt indexExt middleExt ringExt pinkyExt tap

/-- `detectASLLetter(keypoints, thumbExt, indexExt, middleExt, ringExt,
pinkyExt)` (lines 452–621): the unconditional helper computations (lines
454–456, `thumbTouchingFingers` is computed but never used) and the
closed-fist block (lines 458–491), falling through to the `aslD`–`aslZ`
chain exactly as the source's cascade does. -/
def detectASLLetter (l : List Pt)
    (thumbExt indexExt middleExt ringExt pinkyExt : Bool) :
    Except Unit String :=
  isThumbAcrossPalm l >>= fun thumbAcrossPalm =>
  isThumbToSide l >>= fun thumbToSide =>
  isThumbTouchingFingers l >>= fun _thumbTouchingFingers =>
  if !indexExt && !middleExt && !ringExt && !pinkyExt then
    if thumbToSide && !thumbAcrossPalm then .ok "A"
    else
      isMShape l >>= fun m =>
        if m then .ok "M"
        else
          isEShape l >>= fun e =>
            if e then .ok "E"
            else
              isThumbInFront l >>= fun sFront =>
                if sFront then .ok "S"
                else if thumbToSide then .ok "A"
                else aslD l thumbExt indexExt middleExt ringExt pinkyExt
                  thumbAcrossPalm
  else aslD l thumbExt indexExt middleExt ringExt pinkyExt thumbAcrossPalm

/-- The 3D→image-space conversion of `classifyGesture` (lines 256–276):
z-range normalization (`zRange = maxZ - minZ || 1` — JS `||` makes a zero
range fall back to 1), x shifted into `[0,1]`, y shifted and flipped, and
stored pixel coordinates. -/
def convertKeypoints3D (pts : List Pt) : List ConvPt :=
  let zs := pts.map (·.z)
  let minZ := zs.foldl jsMin (zs.headD 0)
  let maxZ := zs.foldl jsMax (zs.headD 0)
  let zRange := if maxZ - minZ = 0 then 1 else maxZ - minZ
  pts.map (fun p =>
    ⟨p.x + 1/2, 1 - (p.y + 1/2), (p.z - minZ) / zRange,
     (p.x + 1/2) * 640, (1/2 - p.y) * 480⟩)

/-- `classifyGesture(hands)` (lines 243–351).  The ML-hybrid branch is
statically disabled (`useMLHybrid = false`, constructor line 17) and
omitted.  In the 2D fallback branch the keypoints carry no
`xPixel`/`yPixel`; `undefined` and `0` are both falsy in the
`kp.xPixel || kp.x` selection (lines 326–331), so the fallback stores `0`
there to reproduce the selection exactly. -/
def classifyGesture (hands : List Hand) : Except Unit String :=
  match hands with
  | [] => .ok "none"
  | hand :: _ =>
    let chosen : Option (List ConvPt) :=
      if hand.keypoints3D.length > 0 then
        some (convertKeypoints3D hand.keypoints3D)
      else if hand.keypoints.length > 0 then
        some (hand.keypoints.map (fun p => ⟨p.x, p.y, p.z, 0, 0⟩))
      else none
    match chosen with
    | none => .ok "none"     -- line 283: '❌ No keypoints available'
    | some keypoints =>
      if keypoints.length = 0 then .ok "none"   -- line 286 re-check
      else
        let pixelKeypoints : List Pt := keypoints.map (fun q =>
          ⟨(if q.xPixel = 0 then q.x else q.xPixel),
           (if q.yPixel = 0 then q.y else q.yPixel), q.z⟩)
        let thumbExtended := isFingerExtended pixelKeypoints "thumb"
        let indexExtended := isFingerExtended pixelKeypoints "index"
        let middleExtended := isFingerExtended pixelKeypoints "middle"
        let ringExtended := isFingerExtended pixelKeypoints "ring"
        let pinkyExtended := isFingerExtended pixelKeypoints "pinky"
        detectASLLetter pixelKeypoints thumbExtended indexExtended
          middleExtended ringExtended pinkyExtended

/-- The pure per-tick core of `detectGesture(videoElement)` (lines 155–241)
after hand estimation: no detected hand short-circuits to a `'none'` result
without consulting the smoother (lines 182–184); otherwise the raw
classification is smoothed; a thrown classification error is caught by the
surrounding `try`/`catch` which returns `null` (lines 237–240), modelled as
the outer `none`.  The legacy `gestureBuffer` push and the confidence score,
which do not affect the gesture result, are omitted, as are the
initialization and video-readiness guards that precede this core. -/
def detectGesture (hands : List Hand) (currentTime : ℤ) (s : SmootherState) :
    Option (Option String) × SmootherState :=
  if hands.length = 0 then (some (some "none"), s)
  else
    match classifyGesture hands with
    | .error _ => (none, s)
    | .ok rawGesture =>
      let smoothed := smoothGesture rawGesture currentTime s
      (some smoothed.1, smoothed.2)

/-- A complete 21-point pixel-space hand (all five fingers extended, thumb
far from the palm, fingertips widely separated) that matches none of the 26
shape predicates; used to exhibit the `'unknown'` fall-through.  All
thresholded quantities on this input are decided identically by the exact
real semantics and     the rational model (each individually-thresholded
squared distance is exact, and the averaged distances are far from their
thresholds). -/
def noMatchHand : List Pt :=
  [⟨100, 300, 0⟩, ⟨60, 290, 0⟩, ⟨40, 280, 0⟩, ⟨30, 270, 0⟩, ⟨10, 280, 0⟩,
   ⟨80, 250, 0⟩, ⟨80, 200, 0⟩, ⟨80, 150, 0⟩, ⟨80, 100, 0⟩,
   ⟨105, 250, 0⟩, ⟨105, 200, 0⟩, ⟨105, 150, 0⟩, ⟨105, 100, 0⟩,
   ⟨130, 250, 0⟩, ⟨130, 200, 0⟩, ⟨130, 150, 0⟩, ⟨130, 100, 0⟩,
   ⟨155, 250, 0⟩, ⟨155, 210, 0⟩, ⟨155, 170, 0⟩, ⟨155, 130, 0⟩]

/-!
## Smoother lemmas
-/

/-- One accumulation tick: feeding `c ≠ lastGesture` while the *pre-tick*
counter of `c` is below `minConfidenceFrames` returns the `null` sentinel,
leaves the confirmed gesture and timestamp alone, increments `c`'s counter,
and — on a confusable-group switch — hard-resets the previous gesture's
counter to `0`. -/
lemma smooth_accum (s : SmootherState) (c : String) (t : ℤ)
    (hne : c ≠ s.lastGesture)
    (hcc : s.gestureConfidence c < minConfidenceFrames) :
    (smoothGesture c t s).1 = none ∧
    (smoothGesture c t s).2.lastGesture = s.lastGesture ∧
    (smoothGesture c t s).2.lastGestureTimestamp = s.lastGestureTimestamp ∧
    (smoothGesture c t s).2.gestureConfidence c = s.gestureConfidence c + 1 ∧
    (similarPair c s.lastGesture = true →
      (smoothGesture c t s).2.gestureConfidence s.lastGesture = 0) := by
  have hne' : s.lastGesture ≠ c := fun h => hne h.symm
  simp only [smoothGesture]
  have hconf1 :
      (if s.lastGesture ≠ c ∧ similarPair c s.lastGesture = true
        then setConf s.gestureConfidence s.lastGesture 0
        else s.gestureConfidence) c = s.gestureConfidence c := by
    split
    · simp [setConf, hne]
    · rfl
  rw [hconf1]
  have hnotge : ¬ s.gestureConfidence c ≥ minConfidenceFrames :=
    fun h => absurd hcc (not_lt.mpr h)
  rw [if_neg hnotge, if_pos hne]
  refine ⟨rfl, rfl, rfl, ?_, ?_⟩
  · simp [setConf, hne']
  · intro hsim
    have hcond : (s.lastGesture ≠ c ∧ similarPair c s.lastGesture = true) :=
      ⟨hne', hsim⟩
    simp only [if_pos hcond]
    simp [setConf, hne', hne]

/-- One confirmation tick across a confusable group: if the pre-tick counter
of `c ≠ lastGesture` has reached `minConfidenceFrames` and the pair is in a
common group, the switch is confirmed immediately — the debounce timer is
not consulted. -/
lemma smooth_confirm_similar (s : SmootherState) (c : String) (t : ℤ)
    (hne : c ≠ s.lastGesture)
    (hcc : minConfidenceFrames ≤ s.gestureConfidence c)
    (hsim : similarPair c s.lastGesture = true) :
    (smoothGesture c t s).1 = some c ∧
    (smoothGesture c t s).2.lastGesture = c ∧
    (smoothGesture c t s).2.lastGestureTimestamp = t := by
  simp only [smoothGesture]
  have hconf1 :
      (if s.lastGesture ≠ c ∧ similarPair c s.lastGesture = true
        then setConf s.gestureConfidence s.lastGesture 0
        else s.gestureConfidence) c = s.gestureConfidence c := by
    split
    · simp [setConf, hne]
    · rfl
  rw [hconf1, if_pos hcc, if_pos hne]
  rw [if_neg (by simp [hsim])]
  exact ⟨rfl, rfl, rfl⟩

/-!
## Claims about the Confidence Smoother
-/

/-- Claim C1.  The claim states that with `MIN_FRAMES = 2` and
`DEBOUNCE_MS = 100`, feeding `'K'` on three ticks spaced 200 ms apart from
the initial state yields the confirmed output `'K'` already on the second
tick.  The code reads the counter *before* incrementing it and compares that
stale value against `minConfidenceFrames`, so the second tick still returns
the Pending sentinel (`null`) and `'K'` is only confirmed on the third tick —
this theorem evaluates the code on exactly the claimed scenario. -/
theorem C1_kkk_confirms_on_third_tick :
    (smoothGesture "K" 1000 smootherInit).1 = none ∧
    (smoothGesture "K" 1200 (smoothGesture "K" 1000 smootherInit).2).1 =
      none ∧
    (smoothGesture "K" 1400
      (smoothGesture "K" 1200 (smoothGesture "K" 1000 smootherInit).2).2).1 =
      some "K" := by
  refine ⟨rfl, ?_, ?_⟩ <;> decide

/-- Claim C2: for every smoother state and raw symbol `c` different from the
confirmed gesture, if `c`'s counter is below `MIN_FRAMES` the smoother never
returns the stale confirmed gesture — it returns the Pending sentinel
(`null`, a value distinct from every symbol string). -/
theorem C2_pending_suppression (s : SmootherState) (c : String) (t : ℤ)
    (hne : c ≠ s.lastGesture)
    (hcc : s.gestureConfidence c < minConfidenceFrames) :
    (smoothGesture c t s).1 = none := by
  exact (smooth_accum s c t hne hcc).1

/-- Witness for C2 at a concrete input: fresh state, one `'K'` frame. -/
theorem C2_pending_suppression_witness :
    "K" ≠ smootherInit.lastGesture ∧
    smootherInit.gestureConfidence "K" < minConfidenceFrames ∧
    (smoothGesture "K" 0 smootherInit).1 = none :=
  ⟨by decide, by decide,
   C2_pending_suppression smootherInit "K" 0 (by decide) (by decide)⟩

/-- Claim C3.  With `lastConfirmed = 'C'`, feeding `'E'` (same fist-like
confusable group) hard-resets `counters['C']` to `0` on the first tick and
the eventual confirmation of `'E'` skips the debounce timer entirely — the
times `t1 t2 t3` are unconstrained.  However, because the code compares the
*pre-increment* counter with `minConfidenceFrames`, `'E'` is **not**
confirmed after `MIN_FRAMES = 2` ticks as the claim states: the second tick
still returns Pending and confirmation happens on the third tick. -/
theorem C3_confusable_switch_needs_three_ticks (s : SmootherState)
    (t1 t2 t3 : ℤ) (hlast : s.lastGesture = "C")
    (hE : s.gestureConfidence "E" = 0) :
    (smoothGesture "E" t1 s).1 = none ∧
    (smoothGesture "E" t1 s).2.gestureConfidence "C" = 0 ∧
    (smoothGesture "E" t2 (smoothGesture "E" t1 s).2).1 = none ∧
    (smoothGesture "E" t3
      (smoothGesture "E" t2 (smoothGesture "E" t1 s).2).2).1 = some "E" ∧
    (smoothGesture "E" t3
      (smoothGesture "E" t2 (smoothGesture "E" t1 s).2).2).2.lastGesture =
      "E" := by
  have hne1 : "E" ≠ s.lastGesture := by rw [hlast]; decide
  have hsim1 : similarPair "E" s.lastGesture = true := by rw [hlast]; decide
  have hcc1 : s.gestureConfidence "E" < minConfidenceFrames := by
    rw [hE]; norm_num [minConfidenceFrames]
  obtain ⟨o1, lg1, _, cE1, hreset⟩ := smooth_accum s "E" t1 hne1 hcc1
  have hne2 : "E" ≠ (smoothGesture "E" t1 s).2.lastGesture := by
    rw [lg1, hlast]; decide
  have hcc2 :
      (smoothGesture "E" t1 s).2.gestureConfidence "E" <
        minConfidenceFrames := by
    rw [cE1, hE]; norm_num [minConfidenceFrames]
  obtain ⟨o2, lg2, _, cE2, _⟩ :=
    smooth_accum (smoothGesture "E" t1 s).2 "E" t2 hne2 hcc2
  have hne3 :
      "E" ≠ (smoothGesture "E" t2 (smoothGesture "E" t1 s).2).2.lastGesture := by
    rw [lg2, lg1, hlast]; decide
  have hcc3 :
      minConfidenceFrames ≤
        (smoothGesture "E" t2
          (smoothGesture "E" t1 s).2).2.gestureConfidence "E" := by
    rw [cE2, cE1, hE]; norm_num [minConfidenceFrames]
  have hsim3 :
      similarPair "E"
        (smoothGesture "E" t2 (smoothGesture "E" t1 s).2).2.lastGesture =
        true := by
    rw [lg2, lg1, hlast]; decide
  obtain ⟨o3, lg3, _⟩ :=
    smooth_confirm_similar
      (smoothGesture "E" t2 (smoothGesture "E" t1 s).2).2 "E" t3 hne3 hcc3
      hsim3
  refine ⟨o1, ?_, o2, o3, lg3⟩
  have h0 := hreset hsim1
  rwa [hlast] at h0

/-- Witness for C3 at a concrete input: `lastConfirmed = 'C'` changed at
time 1000; three `'E'` ticks at 1010, 1020, 1030, all inside the 100 ms
debounce window. -/
theorem C3_confusable_switch_witness :
    (⟨fun _ => 0, "C", 1000⟩ : SmootherState).lastGesture = "C" ∧
    ((smoothGesture "E" 1010 ⟨fun _ => 0, "C", 1000⟩).1 = none ∧
     (smoothGesture "E" 1010
       ⟨fun _ => 0, "C", 1000⟩).2.gestureConfidence "C" = 0 ∧
     (smoothGesture "E" 1020
       (smoothGesture "E" 1010 ⟨fun _ => 0, "C", 1000⟩).2).1 = none ∧
     (smoothGesture "E" 1030
       (smoothGesture "E" 1020
         (smoothGesture "E" 1010 ⟨fun _ => 0, "C", 1000⟩).2).2).1 =
       some "E" ∧
     (smoothGesture "E" 1030
       (smoothGesture "E" 1020
         (smoothGesture "E" 1010
           ⟨fun _ => 0, "C", 1000⟩).2).2).2.lastGesture = "E") :=
  ⟨rfl, C3_confusable_switch_needs_three_ticks _ 1010 1020 1030 rfl rfl⟩

/-- Counterexample to claim C4 at a concrete input: with `'K'` confirmed, a
single no-hand frame makes `detectGesture` report `'none'` immediately and
leaves the smoother state completely untouched — the `'none'` symbol is not
fed through the smoother's accumulation/debounce rules at all. -/
theorem C4_no_hand_cex :
    (detectGesture [] 5000 ⟨fun _ => 0, "K", 4000⟩).1 = some (some "none") ∧
    (detectGesture [] 5000 ⟨fun _ => 0, "K", 4000⟩).2 =
      (⟨fun _ => 0, "K", 4000⟩ : SmootherState) ∧
    (⟨fun _ => 0, "K", 4000⟩ : SmootherState).lastGesture = "K" ∧
    some "none" ≠ some "K" :=
  ⟨rfl, rfl, rfl, by decide⟩

/-- Claim C4, amended: a frame with **no detected hand** bypasses the
smoother — `detectGesture` returns `'none'` at once with the smoother state
unchanged; the `None` symbol is subject to the smoother's rules only when it
arises from classifying a present hand (for example a hand whose keypoint
lists are empty), in which case `smoothGesture "none"` is invoked on the
current state. -/
theorem C4_no_hand_amended (t : ℤ) (s : SmootherState) :
    detectGesture [] t s = (some (some "none"), s) ∧
    detectGesture [⟨[], []⟩] t s =
      (some (smoothGesture "none" t s).1, (smoothGesture "none" t s).2) :=
  ⟨rfl, rfl⟩

/-!
## Claim about `setSentence`
-/

/-- Claim C10: `setSentence(text)` stores `text` verbatim — no validation,
capitalization or space normalization — resets the word in progress to the
empty string, and touches nothing else (`lastLetter` and the debounce
timestamp are preserved). -/
theorem C10_setSentence_verbatim_reset (s : SBState) (text : Str) :
    setSentence text s =
      ⟨[], text, s.lastLetter, s.lastLetterTimestamp⟩ := rfl

/-!
## Sentence Assembler lemmas
-/

/-- Unfolding step of `hasTriple` on three exposed heads. -/
lemma hasTriple_cons (a b c : Char) (l : Str) :
    hasTriple (a :: b :: c :: l) =
      ((a = b && b = c) || hasTriple (b :: c :: l)) := rfl

/-- JS `slice(-1)` of a string with one appended character. -/
lemma lastN_append_one (w : Str) (c : Char) : lastN 1 (w ++ [c]) = [c] := by
  simp [lastN, List.length_append]

/-- `slice(-2)` ignores a head character while at least two remain. -/
lemma lastN_two_cons (a : Char) (l : Str) (h : 2 ≤ l.length) :
    lastN 2 (a :: l) = lastN 2 l := by
  have hlen : (a :: l).length - 2 = (l.length - 2) + 1 := by
    simp [List.length_cons]; omega
  simp only [lastN, hlen, List.drop_succ_cons]

/-- Appending one character preserves triple-freedom provided the last two
characters are not both that character. -/
lemma hasTriple_append (w : Str) (x : Char) :
    hasTriple w = false → lastN 2 w ≠ [x, x] →
    hasTriple (w ++ [x]) = false := by
  induction w with
  | nil => intro _ _; rfl
  | cons a w ih =>
    intro hw hlast
    cases w with
    | nil => rfl
    | cons b rest =>
      cases rest with
      | nil =>
        by_cases hab : a = b
        · by_cases hbx : b = x
          · exfalso
            apply hlast
            subst hab; subst hbx
            rfl
          · simp [hasTriple, hbx]
        · simp [hasTriple, hab]
      | cons c rest2 =>
        have hcons : (a :: b :: c :: rest2) ++ [x] =
            a :: b :: c :: (rest2 ++ [x]) := by simp
        rw [hcons, hasTriple_cons]
        rw [hasTriple_cons] at hw
        have hparts := Bool.or_eq_false_iff.mp hw
        have h3 : lastN 2 (b :: c :: rest2) ≠ [x, x] := by
          rw [lastN_two_cons a (b :: c :: rest2) (by simp)] at hlast
          exact hlast
        have h4 := ih hparts.2 h3
        have hcons2 : (b :: c :: rest2) ++ [x] =
            b :: c :: (rest2 ++ [x]) := by simp
        rw [hcons2] at h4
        rw [hparts.1, h4]
        rfl

/-- Dropping the last character preserves triple-freedom. -/
lemma hasTriple_dropLast (w : Str) :
    hasTriple w = false → hasTriple w.dropLast = false := by
  induction w with
  | nil => intro _; rfl
  | cons a w ih =>
    intro hw
    cases w with
    | nil => rfl
    | cons b rest =>
      cases rest with
      | nil => rfl
      | cons c rest2 =>
        rw [hasTriple_cons] at hw
        have hparts := Bool.or_eq_false_iff.mp hw
        have h4 := ih hparts.2
        have hdl : (a :: b :: c :: rest2).dropLast =
            a :: (b :: c :: rest2).dropLast := by
          simp [List.dropLast]
        rw [hdl]
        cases rest2 with
        | nil => rfl
        | cons d rest3 =>
          have hdl2 : (b :: c :: d :: rest3).dropLast =
              b :: c :: (d :: rest3).dropLast := by simp [List.dropLast]
          rw [hdl2] at h4 ⊢
          have : (d :: rest3).dropLast.length = rest3.length := by
            simp [List.length_dropLast]
          rw [hasTriple_cons, hparts.1, h4]
          rfl

/-- A string passing `/^[A-Z]$/i` is one character long. -/
lemma isSingleAlpha_exists (l : Str) (h : isSingleAlpha l = true) :
    ∃ c, l = [c] := by
  cases l with
  | nil => exact absurd h (by decide)
  | cons c rest =>
    cases rest with
    | nil => exact ⟨c, rfl⟩
    | cons d rest2 => exact absurd h (by simp [isSingleAlpha])

/-- `split(' ')` never returns an empty array. -/
lemma splitOnSp_ne_nil (l : Str) : splitOnSp l ≠ [] := by
  cases l with
  | nil => simp [splitOnSp]
  | cons c rest =>
    simp only [splitOnSp]
    split
    · simp
    · split
      · simp
      · simp

/-- `split(' ')` of a space-free string is the one-element array. -/
lemma splitOnSp_no_space (w : Str) (hw : ' ' ∉ w) : splitOnSp w = [w] := by
  induction w with
  | nil => rfl
  | cons c rest ih =>
    have hc : c ≠ ' ' := fun h => hw (h ▸ List.mem_cons_self c rest)
    have hrest : ' ' ∉ rest := fun h => hw (List.mem_cons_of_mem c h)
    simp only [splitOnSp, ih hrest]
    rw [if_neg hc]

/-- `split(' ')` after appending `' ' + w` for a space-free `w` appends one
token. -/
lemma splitOnSp_append_word (S w : Str) (hw : ' ' ∉ w) :
    splitOnSp (S ++ ' ' :: w) = splitOnSp S ++ [w] := by
  induction S with
  | nil =>
    simp only [List.nil_append, splitOnSp, splitOnSp_no_space w hw]
    rfl
  | cons c S ih =>
    have hcons : (c :: S) ++ ' ' :: w = c :: (S ++ ' ' :: w) := by simp
    rw [hcons]
    simp only [splitOnSp, ih]
    by_cases hc : c = ' '
    · rw [if_pos hc, if_pos hc]
      rfl
    · rw [if_neg hc, if_neg hc]
      obtain ⟨t, ts, hts⟩ : ∃ t ts, splitOnSp S = t :: ts := by
        cases h : splitOnSp S with
        | nil => exact absurd h (splitOnSp_ne_nil S)
        | cons t ts => exact ⟨t, ts, rfl⟩
      rw [hts]
      simp

/-- `join(' ')` is a left inverse of `split(' ')`. -/
lemma joinSp_splitOnSp (S : Str) : joinSp (splitOnSp S) = S := by
  induction S with
  | nil => rfl
  | cons c rest ih =>
    simp only [splitOnSp]
    obtain ⟨t, ts, hts⟩ : ∃ t ts, splitOnSp rest = t :: ts := by
      cases h : splitOnSp rest with
      | nil => exact absurd h (splitOnSp_ne_nil rest)
      | cons t ts => exact ⟨t, ts, rfl⟩
    rw [hts] at ih ⊢
    by_cases hc : c = ' '
    · rw [if_pos hc]
      subst hc
      cases ts with
      | nil =>
        simp [joinSp] at ih ⊢
        exact ih
      | cons t2 ts2 =>
        simp [joinSp] at ih ⊢
        exact ih
    · rw [if_neg hc]
      cases ts with
      | nil =>
        simp [joinSp] at ih ⊢
        rw [ih]
      | cons t2 ts2 =>
        simp [joinSp] at ih ⊢
        rw [ih]

/-- The ASCII upper-casing of a non-space character is not a space. -/
lemma jsToUpperChar_ne_space (c : Char) (h : c ≠ ' ') :
    jsToUpperChar c ≠ ' ' := by
  unfold jsToUpperChar
  split <;> first | decide | exact h

/-- Capitalization introduces no space. -/
lemma capFirst_no_space (w : Str) (hw : ' ' ∉ w) : ' ' ∉ capFirst w := by
  cases w with
  | nil => simp [capFirst]
  | cons c rest =>
    have hc : c ≠ ' ' := fun hh => hw (hh ▸ List.mem_cons_self c rest)
    have hrest : ' ' ∉ rest := fun hh => hw (List.mem_cons_of_mem c hh)
    simp only [capFirst, List.mem_cons]
    rintro (hh | hh)
    · exact jsToUpperChar_ne_space c hc hh.symm
    · exact hrest hh

/-- Capitalization preserves non-emptiness. -/
lemma capFirst_ne_nil (w : Str) (hw : w ≠ []) : capFirst w ≠ [] := by
  cases w with
  | nil => exact absurd rfl hw
  | cons c rest => simp [capFirst]

/-- `addSpace` leaves the word buffer empty or untouched. -/
lemma addSpace_inv (s : SBState) (hw : hasTriple s.currentWord = false) :
    hasTriple (addSpace s).2.currentWord = false := by
  simp only [addSpace]
  split_ifs <;> first | exact hw | rfl

/-- `backspace` only ever shortens the word buffer. -/
lemma backspace_inv (s : SBState) (hw : hasTriple s.currentWord = false) :
    hasTriple (backspace s).2.currentWord = false := by
  unfold backspace
  split_ifs
  · exact hasTriple_dropLast _ hw
  · exact hw
  · exact hw

/-- `addLetter` preserves triple-freedom of the word buffer. -/
lemma addLetter_inv (l : Str) (now : ℤ) (s : SBState)
    (hw : hasTriple s.currentWord = false) :
    hasTriple (addLetter l now s).2.currentWord = false := by
  simp only [addLetter]
  split_ifs with h1 h2 h3 h4 h5 h6 h7
  · exact hw
  · exact hw
  · exact addSpace_inv s hw
  · exact backspace_inv s hw
  · rfl
  · exact hw
  · obtain ⟨c, rfl⟩ := isSingleAlpha_exists l h6
    exact hasTriple_append _ _ hw (by simpa [toLowerStr] using h7)
  · exact hw

/-- Every control-surface operation preserves triple-freedom. -/
lemma runOp_inv (s : SBState) (op : SBOp)
    (hw : hasTriple s.currentWord = false) :
    hasTriple (runOp s op).currentWord = false := by
  cases op with
  | letter l now => exact addLetter_inv l now s hw
  | space => exact addSpace_inv s hw
  | back => exact backspace_inv s hw
  | clr => rfl
  | clrWord => rfl
  | setSent t => rfl

/-- Triple-freedom holds along every operation sequence. -/
lemma runOps_inv (ops : List SBOp) :
    ∀ s : SBState, hasTriple s.currentWord = false →
      hasTriple (runOps s ops).currentWord = false := by
  induction ops with
  | nil => intro s hw; exact hw
  | cons op rest ih =>
    intro s hw
    exact ih (runOp s op) (runOp_inv s op hw)

/-- The two action tags `addSpace` can report. -/
lemma addSpace_actions (s : SBState) :
    (addSpace s).1.action = "space_ignored" ∨
    (addSpace s).1.action = "word_completed" := by
  simp only [addSpace]
  split_ifs <;> simp

/-- The three action tags `backspace` can report. -/
lemma backspace_actions (s : SBState) :
    (backspace s).1.action = "letter_deleted" ∨
    (backspace s).1.action = "word_deleted" ∨
    (backspace s).1.action = "backspace_ignored" := by
  simp only [backspace]
  split_ifs <;> simp

/-- If `addLetter` reported `letter_added` then it appended the lower-cased
letter and updated the debounce bookkeeping — and nothing else. -/
lemma addLetter_added_state (l : Str) (now : ℤ) (s : SBState)
    (h : (addLetter l now s).1.action = "letter_added") :
    (addLetter l now s).2 =
      ⟨s.currentWord ++ toLowerStr l, s.sentence, l, now⟩ := by
  simp only [addLetter] at h ⊢
  split_ifs at h ⊢ with h1 h2 h3 h4 h5 h6 h7
  · exact absurd h (show ("duplicate_blocked" : String) ≠ "letter_added" from
      by decide)
  · exact absurd h (show ("debounced" : String) ≠ "letter_added" from
      by decide)
  · rcases addSpace_actions s with h' | h' <;> rw [h'] at h <;>
      exact absurd h (by decide)
  · rcases backspace_actions s with h' | h' | h' <;> rw [h'] at h <;>
      exact absurd h (by decide)
  · exact absurd h (show ("cleared" : String) ≠ "letter_added" from by decide)
  · exact absurd h (show ("triple_prevented" : String) ≠ "letter_added" from
      by decide)
  · rfl
  · exact absurd h (show ("ignored" : String) ≠ "letter_added" from by decide)

/-!
## Claims about the Sentence Assembler
-/

/-- Counterexample to claim C5 at a concrete input: after building the word
`"aa"` (letters accepted at t = 0 and t = 2000), a third `'A'` at t = 2100
would create a triple — the append is indeed rejected with the state
unchanged, but the action tag is `duplicate_blocked` (the 2000 ms duplicate
guard runs before the triple check), not `triple_prevented` as claimed. -/
theorem C5_triple_action_cex :
    lastN 2 (runOps sbInit
        [.letter (str "A") 0, .letter (str "A") 2000]).currentWord =
      toLowerStr (str "A") ++ toLowerStr (str "A") ∧
    (addLetter (str "A") 2100 (runOps sbInit
        [.letter (str "A") 0, .letter (str "A") 2000])).1.action =
      "duplicate_blocked" ∧
    "duplicate_blocked" ≠ "triple_prevented" := by
  refine ⟨?_, ?_, ?_⟩ <;> decide

/-- Claim C5, amended: the WordBuffer never contains three or more identical
consecutive characters along any operation sequence from the initial state;
an `addLetter` whose append would create such a run always leaves the entire
state unchanged, reporting `triple_prevented` unless the duplicate or
debounce guard already rejected it (`duplicate_blocked`/`debounced`). -/
theorem C5_triple_invariant_amended :
    (∀ ops : List SBOp, hasTriple (runOps sbInit ops).currentWord = false) ∧
    (∀ (s : SBState) (l : Str) (now : ℤ),
      isSingleAlpha l = true →
      lastN 2 s.currentWord = toLowerStr l ++ toLowerStr l →
      (addLetter l now s).2 = s ∧
      ((addLetter l now s).1.action = "duplicate_blocked" ∨
       (addLetter l now s).1.action = "debounced" ∨
       (addLetter l now s).1.action = "triple_prevented")) := by
  constructor
  · intro ops
    exact runOps_inv ops sbInit rfl
  · intro s l now halpha hlast
    obtain ⟨c, rfl⟩ := isSingleAlpha_exists l halpha
    simp only [addLetter]
    split_ifs with h1 h2 h3 h4 h5
    · exact ⟨rfl, Or.inl rfl⟩
    · exact ⟨rfl, Or.inr (Or.inl rfl)⟩
    · exact absurd halpha (by rw [h3]; decide)
    · rcases h4 with h4 | h4 <;> exact absurd halpha (by rw [h4]; decide)
    · exact absurd halpha (by rw [h5]; decide)
    · exact ⟨rfl, Or.inr (Or.inr rfl)⟩

/-- Witness for the amended C5 at a concrete input: word `"aa"`, a third
`'A'` arriving 5000 ms later (outside both guard windows) is rejected with
`triple_prevented` and no state change. -/
theorem C5_triple_invariant_witness :
    isSingleAlpha (str "A") = true ∧
    lastN 2 (str "aa") = toLowerStr (str "A") ++ toLowerStr (str "A") ∧
    ((addLetter (str "A") 5000 ⟨str "aa", [], str "A", 0⟩).2 =
        ⟨str "aa", [], str "A", 0⟩ ∧
      ((addLetter (str "A") 5000 ⟨str "aa", [], str "A", 0⟩).1.action =
          "duplicate_blocked" ∨
       (addLetter (str "A") 5000 ⟨str "aa", [], str "A", 0⟩).1.action =
          "debounced" ∨
       (addLetter (str "A") 5000 ⟨str "aa", [], str "A", 0⟩).1.action =
          "triple_prevented")) :=
  ⟨by decide, by decide,
   C5_triple_invariant_amended.2 ⟨str "aa", [], str "A", 0⟩ (str "A") 5000
     (by decide) (by decide)⟩

/-- Counterexample to claim C6 at a concrete input: `addLetter('A')` accepted
at t₁ = 3000, repeated at t₂ = 3100 (so t₁ < t₂ < t₁ + 1500): the claim says
the second call reports `debounced`, but the code reports
`duplicate_blocked` — the 2000 ms duplicate-at-end-of-word guard has
priority over the hold-time debounce. -/
theorem C6_debounce_action_cex :
    (addLetter (str "A") 3000 sbInit).1.action = "letter_added" ∧
    ((3000 : ℤ) < 3100 ∧ (3100 : ℤ) < 3000 + 1500) ∧
    (addLetter (str "A") 3100
      (addLetter (str "A") 3000 sbInit).2).1.action = "duplicate_blocked" ∧
    "duplicate_blocked" ≠ "debounced" := by
  refine ⟨?_, ⟨?_, ?_⟩, ?_, ?_⟩ <;> decide

/-- Claim C6, amended: after a successful `addLetter('A')` at `t1`, a second
`addLetter('A')` at any `t2` with `t1 < t2 < t1 + HOLD_TIME` is rejected
with the WordBuffer (indeed the whole state) unchanged — but the action is
`duplicate_blocked`, because the repeated letter is the last character of
the word and the 2000 ms duplicate window (checked first) covers the whole
1500 ms hold window. -/
theorem C6_duplicate_guard_preempts_debounce (s : SBState) (t1 t2 : ℤ)
    (hadded : (addLetter (str "A") t1 s).1.action = "letter_added")
    (h12 : t1 < t2) (h15 : t2 < t1 + 1500) :
    (addLetter (str "A") t2 (addLetter (str "A") t1 s).2).1.action =
      "duplicate_blocked" ∧
    (addLetter (str "A") t2 (addLetter (str "A") t1 s).2).2 =
      (addLetter (str "A") t1 s).2 := by
  rw [addLetter_added_state _ _ _ hadded]
  have hrep : str "A" =
      toUpperStr (lastN 1 (s.currentWord ++ toLowerStr (str "A"))) := by
    rw [show toLowerStr (str "A") = [jsToLowerChar 'A'] from rfl,
        lastN_append_one]
    rfl
  simp only [addLetter]
  rw [if_pos ⟨hrep, by omega⟩]
  exact ⟨rfl, rfl⟩

/-- Witness for the amended C6 at a concrete input: the counterexample
scenario (t₁ = 3000, t₂ = 3100 from the fresh state). -/
theorem C6_duplicate_guard_witness :
    (addLetter (str "A") 3000 sbInit).1.action = "letter_added" ∧
    ((addLetter (str "A") 3100
        (addLetter (str "A") 3000 sbInit).2).1.action =
        "duplicate_blocked" ∧
      (addLetter (str "A") 3100
        (addLetter (str "A") 3000 sbInit).2).2 =
        (addLetter (str "A") 3000 sbInit).2) :=
  ⟨by decide,
   C6_duplicate_guard_preempts_debounce sbInit 3000 3100 (by decide)
     (by decide) (by decide)⟩

/-- Counterexample to claim C7 at a concrete input: WordBuffer `"hello"`
(unchanged by autocorrect), empty sentence.  `addSpace()` then `backspace()`
leaves `currentWord` empty — the deleted word is *not* restored into the
word buffer as the claim states. -/
theorem C7_round_trip_cex :
    autoCorrect (str "hello") = str "hello" ∧
    (backspace (addSpace ⟨str "hello", [], [], 0⟩).2).2.currentWord = [] ∧
    str "hello" ≠ ([] : Str) := by
  refine ⟨?_, ?_, ?_⟩ <;> decide

/-- Claim C7, amended: for a non-empty, space-free WordBuffer `w` that
autocorrect returns unchanged, `addSpace()` followed by `backspace()`
discards the word entirely: the sentence returns to its pre-space value and
`currentWord` ends empty (not equal to `w`) — `backspace` deletes the last
sentence word without restoring it. -/
theorem C7_space_backspace_discards_word (s : SBState)
    (hne : s.currentWord ≠ [])
    (hac : autoCorrect s.currentWord = s.currentWord)
    (hsp : ' ' ∉ s.currentWord) :
    (backspace (addSpace s).2).2.currentWord = [] ∧
    (backspace (addSpace s).2).2.sentence = s.sentence := by
  have hlen : ¬ s.currentWord.length = 0 := by
    simpa [List.length_eq_zero] using hne
  have hsp1 : (addSpace s).2 =
      ⟨[], if s.sentence.length > 0 then s.sentence ++ ' ' :: s.currentWord
           else capFirst s.currentWord, [], s.lastLetterTimestamp⟩ := by
    simp only [addSpace, hac]
    rw [if_neg hlen]
  rw [hsp1]
  by_cases hsent : s.sentence.length > 0
  · rw [if_pos hsent]
    have hslen : (s.sentence ++ ' ' :: s.currentWord).length > 0 := by
      simp
    simp only [backspace]
    rw [if_neg (by simp), if_pos hslen]
    refine ⟨rfl, ?_⟩
    simp only [splitOnSp_append_word s.sentence s.currentWord hsp]
    rw [List.dropLast_concat, joinSp_splitOnSp]
  · rw [if_neg hsent]
    have hs0 : s.sentence = [] := by
      have : s.sentence.length = 0 := by omega
      simpa [List.length_eq_zero] using this
    have hw' : capFirst s.currentWord ≠ [] := capFirst_ne_nil _ hne
    have hlen2 : (capFirst s.currentWord).length > 0 := List.length_pos.mpr hw'
    simp only [backspace]
    rw [if_neg (by simp), if_pos hlen2]
    refine ⟨rfl, ?_⟩
    rw [splitOnSp_no_space _ (capFirst_no_space _ hsp), hs0]
    rfl

/-- Witness for the amended C7 at a concrete input: word `"hi"` on top of
the sentence `"Ok"`. -/
theorem C7_space_backspace_witness :
    str "hi" ≠ ([] : Str) ∧
    autoCorrect (str "hi") = str "hi" ∧
    ((backspace (addSpace ⟨str "hi", str "Ok", [], 0⟩).2).2.currentWord =
        [] ∧
      (backspace (addSpace ⟨str "hi", str "Ok", [], 0⟩).2).2.sentence =
        str "Ok") :=
  ⟨by decide, by decide,
   C7_space_backspace_discards_word ⟨str "hi", str "Ok", [], 0⟩ (by decide)
     (by decide) (by decide)⟩

/-!
## Autocorrect fuzzy-pass lemmas
-/

/-- Once `minDistance` is set it never increases along the scan. -/
lemma fuzzyFold_mono (w : Str) (maxD : Nat) :
    ∀ (cands : List (Str × Str)) (a1 : Option Str) (d : Nat),
      ∃ d2, d2 ≤ d ∧
        (cands.foldl (fuzzyStep w maxD) (a1, some d)).2 = some d2 := by
  intro cands
  induction cands with
  | nil => intro a1 d; exact ⟨d, le_refl d, rfl⟩
  | cons q rest ih =>
    intro a1 d
    simp only [List.foldl_cons, fuzzyStep]
    by_cases hc : levenshteinDistance w q.1 ≤ maxD ∧
        levenshteinDistance w q.1 < d
    · rw [if_pos hc]
      obtain ⟨d2, hle, he⟩ := ih (some q.2) (levenshteinDistance w q.1)
      exact ⟨d2, le_trans hle (le_of_lt hc.2), he⟩
    · rw [if_neg hc]
      exact ih a1 d

/-- Every in-budget candidate bounds the final `minDistance` from above. -/
lemma fuzzyFold_min (w : Str) (maxD : Nat) :
    ∀ (cands : List (Str × Str)) (acc : Option Str × Option Nat)
      (q : Str × Str), q ∈ cands → levenshteinDistance w q.1 ≤ maxD →
      ∃ d2, (cands.foldl (fuzzyStep w maxD) acc).2 = some d2 ∧
        d2 ≤ levenshteinDistance w q.1 := by
  intro cands
  induction cands with
  | nil => intro acc q hq _; exact absurd hq (List.not_mem_nil q)
  | cons p rest ih =>
    intro acc q hq hbudget
    rcases List.mem_cons.mp hq with rfl | hq'
    · simp only [List.foldl_cons]
      obtain ⟨a1, a2⟩ := acc
      cases a2 with
      | none =>
        have hstep : fuzzyStep w maxD (a1, none) q =
            (some q.2, some (levenshteinDistance w q.1)) := by
          simp only [fuzzyStep]
          rw [if_pos hbudget]
        rw [hstep]
        obtain ⟨d2, hle, he⟩ := fuzzyFold_mono w maxD rest (some q.2)
          (levenshteinDistance w q.1)
        exact ⟨d2, he, hle⟩
      | some m =>
        by_cases hlt : levenshteinDistance w q.1 < m
        · have hstep : fuzzyStep w maxD (a1, some m) q =
              (some q.2, some (levenshteinDistance w q.1)) := by
            simp only [fuzzyStep]
            rw [if_pos ⟨hbudget, hlt⟩]
          rw [hstep]
          obtain ⟨d2, hle, he⟩ := fuzzyFold_mono w maxD rest (some q.2)
            (levenshteinDistance w q.1)
          exact ⟨d2, he, hle⟩
        · have hstep : fuzzyStep w maxD (a1, some m) q = (a1, some m) := by
            simp only [fuzzyStep]
            rw [if_neg (fun hc => hlt hc.2)]
          rw [hstep]
          obtain ⟨d2, hle, he⟩ := fuzzyFold_mono w maxD rest a1 m
          exact ⟨d2, he, le_trans hle (not_lt.mp hlt)⟩
    · simp only [List.foldl_cons]
      exact ih (fuzzyStep w maxD acc p) q hq' hbudget

/-- The scan's accumulator is always either untouched `(none, none)` or the
stored correction of some already-seen candidate whose distance is within
budget. -/
lemma fuzzyFold_sound (w : Str) (maxD : Nat) (S : List (Str × Str)) :
    ∀ (cands : List (Str × Str)) (acc : Option Str × Option Nat),
      (∀ x ∈ cands, x ∈ S) →
      (acc = (none, none) ∨
        ∃ k v, (k, v) ∈ S ∧
          acc = (some v, some (levenshteinDistance w k)) ∧
          levenshteinDistance w k ≤ maxD) →
      (cands.foldl (fuzzyStep w maxD) acc = (none, none) ∨
        ∃ k v, (k, v) ∈ S ∧
          cands.foldl (fuzzyStep w maxD) acc =
            (some v, some (levenshteinDistance w k)) ∧
          levenshteinDistance w k ≤ maxD) := by
  intro cands
  induction cands with
  | nil => intro acc _ hacc; exact hacc
  | cons p rest ih =>
    intro acc hsub hacc
    simp only [List.foldl_cons]
    have hpS : p ∈ S := hsub p (List.mem_cons_self p rest)
    have hsub' : ∀ x ∈ rest, x ∈ S :=
      fun x hx => hsub x (List.mem_cons_of_mem p hx)
    apply ih _ hsub'
    rcases hacc with rfl | ⟨k, v, hkS, rfl, hbud⟩
    · simp only [fuzzyStep]
      by_cases hc : levenshteinDistance w p.1 ≤ maxD
      · rw [if_pos hc]
        exact Or.inr ⟨p.1, p.2, by simpa using hpS, rfl, hc⟩
      · rw [if_neg hc]
        exact Or.inl rfl
    · simp only [fuzzyStep]
      by_cases hc : levenshteinDistance w p.1 ≤ maxD ∧
          levenshteinDistance w p.1 < levenshteinDistance w k
      · rw [if_pos hc]
        exact Or.inr ⟨p.1, p.2, by simpa using hpS, rfl, hc.1⟩
      · rw [if_neg hc]
        exact Or.inr ⟨k, v, hkS, rfl, hbud⟩

/-!
## Claim about the Autocorrect fuzzy pass
-/

/-- Claim C8: the fuzzy pass runs only for words of length ≥ 3; any
correction it returns is the stored correction of a dictionary key or a
vocabulary word whose Levenshtein distance to the input is within
`ceil(0.4·len)`, and that distance is minimal among all in-budget
candidates; and `correct('freind')` returns `'friend'`. -/
theorem C8_fuzzy_pass_properties :
    (∀ w : Str, w.length < 3 → findClosestWord w = none) ∧
    (∀ (w r : Str), findClosestWord w = some r →
      ∃ p ∈ fuzzyCandidates, p.2 = r ∧
        levenshteinDistance w p.1 ≤ maxDistanceFor w.length ∧
        ∀ q ∈ fuzzyCandidates,
          levenshteinDistance w q.1 ≤ maxDistanceFor w.length →
          levenshteinDistance w p.1 ≤ levenshteinDistance w q.1) ∧
    autoCorrect (str "freind") = str "friend" := by
  refine ⟨?_, ?_, by decide⟩
  · intro w hw
    simp only [findClosestWord]
    rw [if_pos hw]
  · intro w r h
    simp only [findClosestWord] at h
    split_ifs at h with hlen
    · have hsound := fuzzyFold_sound w (maxDistanceFor w.length)
        fuzzyCandidates fuzzyCandidates (none, none) (fun x hx => hx)
        (Or.inl rfl)
      rcases hsound with hnone | ⟨k, v, hkS, heq, hbud⟩
      · rw [hnone] at h
        exact absurd h (by simp)
      · rw [heq] at h
        have hvr : v = r := by simpa using h
        subst hvr
        refine ⟨(k, v), hkS, rfl, hbud, ?_⟩
        intro q hq hqbud
        obtain ⟨d2, he, hle⟩ := fuzzyFold_min w (maxDistanceFor w.length)
          fuzzyCandidates (none, none) q hq hqbud
        rw [heq] at he
        have : levenshteinDistance w k = d2 := by simpa using he
        rw [this]
        exact hle

/-!
## Classifier totality lemmas (for C9)
-/

/-- A keypoint access within the list bounds cannot throw. -/
lemma kp_ok (l : List Pt) (i : Nat) (h : i < l.length) :
    ∃ p, kp l i = .ok p := by
  have hne : l.get? i ≠ none := by
    simp [List.get?_eq_none]
    omega
  cases hg : l.get? i with
  | none => exact absurd hg hne
  | some p => exact ⟨p, by simp only [kp, hg]⟩

/-- `isThumbAcrossPalm` cannot throw on a complete 21-point hand. -/
lemma isThumbAcrossPalm_total (l : List Pt) (h : 21 ≤ l.length) :
    ∃ b, isThumbAcrossPalm l = .ok b := by
  obtain ⟨p0, h0⟩ := kp_ok l 0 (by omega)
  obtain ⟨p4, h4⟩ := kp_ok l 4 (by omega)
  obtain ⟨p5, h5⟩ := kp_ok l 5 (by omega)
  obtain ⟨p9, h9⟩ := kp_ok l 9 (by omega)
  simp only [isThumbAcrossPalm, h0, h4, h5, h9, bind, Except.bind, pure, Except.pure]
  exact ⟨_, rfl⟩

/-- `isThumbToSide` cannot throw on a complete 21-point hand. -/
lemma isThumbToSide_total (l : List Pt) (h : 21 ≤ l.length) :
    ∃ b, isThumbToSide l = .ok b := by
  obtain ⟨p0, h0⟩ := kp_ok l 0 (by omega)
  obtain ⟨p4, h4⟩ := kp_ok l 4 (by omega)
  obtain ⟨p5, h5⟩ := kp_ok l 5 (by omega)
  simp only [isThumbToSide, h0, h4, h5, bind, Except.bind, pure, Except.pure]
  exact ⟨_, rfl⟩

/-- `isDShape` cannot throw on a complete 21-point hand. -/
lemma isDShape_total (l : List Pt) (h : 21 ≤ l.length) :
    ∃ b, isDShape l = .ok b := by
  obtain ⟨p4, h4⟩ := kp_ok l 4 (by omega)
  obtain ⟨p12, h12⟩ := kp_ok l 12 (by omega)
  obtain ⟨p16, h16⟩ := kp_ok l 16 (by omega)
  obtain ⟨p20, h20⟩ := kp_ok l 20 (by omega)
  simp only [isDShape, h4, h12, h16, h20, bind, Except.bind, pure, Except.pure]
  exact ⟨_, rfl⟩

/-- `isThumbTouchingFingers` cannot throw on a complete 21-point hand. -/
lemma isThumbTouchingFingers_total (l : List Pt) (h : 21 ≤ l.length) :
    ∃ b, isThumbTouchingFingers l = .ok b := by
  obtain ⟨p4, h4⟩ := kp_ok l 4 (by omega)
  obtain ⟨p12, h12⟩ := kp_ok l 12 (by omega)
  simp only [isThumbTouchingFingers, h4, h12, bind, Except.bind, pure, Except.pure]
  exact ⟨_, rfl⟩

/-- `isThumbInFront` cannot throw on a complete 21-point hand. -/
lemma isThumbInFront_total (l : List Pt) (h : 21 ≤ l.length) :
    ∃ b, isThumbInFront l = .ok b := by
  obtain ⟨p0, h0⟩ := kp_ok l 0 (by omega)
  obtain ⟨p4, h4⟩ := kp_ok l 4 (by omega)
  obtain ⟨p5, h5⟩ := kp_ok l 5 (by omega)
  simp only [isThumbInFront, h0, h4, h5, bind, Except.bind, pure, Except.pure]
  exact ⟨_, rfl⟩

/-- `isCShape` cannot throw on a complete 21-point hand. -/
lemma isCShape_total (l : List Pt) (h : 21 ≤ l.length) :
    ∃ b, isCShape l = .ok b := by
  obtain ⟨p4, h4⟩ := kp_ok l 4 (by omega)
  obtain ⟨p5, h5⟩ := kp_ok l 5 (by omega)
  obtain ⟨p8, h8⟩ := kp_ok l 8 (by omega)
  obtain ⟨p9, h9⟩ := kp_ok l 9 (by omega)
  obtain ⟨p12, h12⟩ := kp_ok l 12 (by omega)
  obtain ⟨p13, h13⟩ := kp_ok l 13 (by omega)
  obtain ⟨p16, h16⟩ := kp_ok l 16 (by omega)
  obtain ⟨p17, h17⟩ := kp_ok l 17 (by omega)
  obtain ⟨p20, h20⟩ := kp_ok l 20 (by omega)
  simp only [isCShape, h4, h5, h8, h9, h12, h13, h16, h17, h20, bind, Except.bind, pure, Except.pure]
  exact ⟨_, rfl⟩

/-- `isFShape` cannot throw on a complete 21-point hand. -/
lemma isFShape_total (l : List Pt) (h : 21 ≤ l.length) :
    ∃ b, isFShape l = .ok b := by
  obtain ⟨p0, h0⟩ := kp_ok l 0 (by omega)
  obtain ⟨p4, h4⟩ := kp_ok l 4 (by omega)
  obtain ⟨p5, h5⟩ := kp_ok l 5 (by omega)
  obtain ⟨p6, h6⟩ := kp_ok l 6 (by omega)
  obtain ⟨p7, h7⟩ := kp_ok l 7 (by omega)
  obtain ⟨p8, h8⟩ := kp_ok l 8 (by omega)
  obtain ⟨p12, h12⟩ := kp_ok l 12 (by omega)
  obtain ⟨p16, h16⟩ := kp_ok l 16 (by omega)
  obtain ⟨p20, h20⟩ := kp_ok l 20 (by omega)
  simp only [isFShape, h0, h4, h5, h6, h7, h8, h12, h16, h20, bind, Except.bind, pure, Except.pure]
  exact ⟨_, rfl⟩

/-- `isOShape` cannot throw on a complete 21-point hand. -/
lemma isOShape_total (l : List Pt) (h : 21 ≤ l.length) :
    ∃ b, isOShape l = .ok b := by
  obtain ⟨p4, h4⟩ := kp_ok l 4 (by omega)
  obtain ⟨p8, h8⟩ := kp_ok l 8 (by omega)
  simp only [isOShape, h4, h8, bind, Except.bind, pure, Except.pure]
  exact ⟨_, rfl⟩

/-- `isKShape` cannot throw on a complete 21-point hand. -/
lemma isKShape_total (l : List Pt) (h : 21 ≤ l.length) :
    ∃ b, isKShape l = .ok b := by
  obtain ⟨p5, h5⟩ := kp_ok l 5 (by omega)
  obtain ⟨p8, h8⟩ := kp_ok l 8 (by omega)
  obtain ⟨p9, h9⟩ := kp_ok l 9 (by omega)
  obtain ⟨p12, h12⟩ := kp_ok l 12 (by omega)
  simp only [isKShape, h5, h8, h9, h12, bind, Except.bind, pure, Except.pure]
  exact ⟨_, rfl⟩

/-- `isLShape` cannot throw on a complete 21-point hand. -/
lemma isLShape_total (l : List Pt) (h : 21 ≤ l.length) :
    ∃ b, isLShape l = .ok b := by
  obtain ⟨p0, h0⟩ := kp_ok l 0 (by omega)
  obtain ⟨p4, h4⟩ := kp_ok l 4 (by omega)
  obtain ⟨p8, h8⟩ := kp_ok l 8 (by omega)
  simp only [isLShape, h0, h4, h8, bind, Except.bind, pure, Except.pure]
  exact ⟨_, rfl⟩

/-- `isPShape` cannot throw on a complete 21-point hand. -/
lemma isPShape_total (l : List Pt) (h : 21 ≤ l.length) :
    ∃ b, isPShape l = .ok b := by
  obtain ⟨p0, h0⟩ := kp_ok l 0 (by omega)
  obtain ⟨p5, h5⟩ := kp_ok l 5 (by omega)
  obtain ⟨p8, h8⟩ := kp_ok l 8 (by omega)
  obtain ⟨p9, h9⟩ := kp_ok l 9 (by omega)
  obtain ⟨p12, h12⟩ := kp_ok l 12 (by omega)
  simp only [isPShape, h0, h5, h8, h9, h12, bind, Except.bind, pure, Except.pure]
  exact ⟨_, rfl⟩

/-- `isQShape` cannot throw on a complete 21-point hand. -/
lemma isQShape_total (l : List Pt) (h : 21 ≤ l.length) :
    ∃ b, isQShape l = .ok b := by
  obtain ⟨p0, h0⟩ := kp_ok l 0 (by omega)
  obtain ⟨p2, h2⟩ := kp_ok l 2 (by omega)
  obtain ⟨p4, h4⟩ := kp_ok l 4 (by omega)
  obtain ⟨p5, h5⟩ := kp_ok l 5 (by omega)
  obtain ⟨p8, h8⟩ := kp_ok l 8 (by omega)
  simp only [isQShape, h0, h2, h4, h5, h8, bind, Except.bind, pure, Except.pure]
  exact ⟨_, rfl⟩

/-- `isTShape` cannot throw on a complete 21-point hand. -/
lemma isTShape_total (l : List Pt) (h : 21 ≤ l.length) :
    ∃ b, isTShape l = .ok b := by
  obtain ⟨p4, h4⟩ := kp_ok l 4 (by omega)
  obtain ⟨p5, h5⟩ := kp_ok l 5 (by omega)
  obtain ⟨p9, h9⟩ := kp_ok l 9 (by omega)
  simp only [isTShape, h4, h5, h9, bind, Except.bind, pure, Except.pure]
  exact ⟨_, rfl⟩

/-- `isMShape` cannot throw on a complete 21-point hand. -/
lemma isMShape_total (l : List Pt) (h : 21 ≤ l.length) :
    ∃ b, isMShape l = .ok b := by
  obtain ⟨p4, h4⟩ := kp_ok l 4 (by omega)
  obtain ⟨p8, h8⟩ := kp_ok l 8 (by omega)
  obtain ⟨p12, h12⟩ := kp_ok l 12 (by omega)
  obtain ⟨p16, h16⟩ := kp_ok l 16 (by omega)
  simp only [isMShape, h4, h8, h12, h16, bind, Except.bind, pure, Except.pure]
  exact ⟨_, rfl⟩

/-- `isNShape` cannot throw on a complete 21-point hand. -/
lemma isNShape_total (l : List Pt) (h : 21 ≤ l.length) :
    ∃ b, isNShape l = .ok b := by
  obtain ⟨p4, h4⟩ := kp_ok l 4 (by omega)
  obtain ⟨p8, h8⟩ := kp_ok l 8 (by omega)
  obtain ⟨p12, h12⟩ := kp_ok l 12 (by omega)
  simp only [isNShape, h4, h8, h12, bind, Except.bind, pure, Except.pure]
  exact ⟨_, rfl⟩

/-- `areFingersTogether` on indices 8 and 12 (its only call sites) cannot
throw on a complete hand. -/
lemma areFingersTogether_total (l : List Pt) (h : 21 ≤ l.length) :
    ∃ b, areFingersTogether l 8 12 = .ok b := by
  obtain ⟨p8, h8⟩ := kp_ok l 8 (by omega)
  obtain ⟨p12, h12⟩ := kp_ok l 12 (by omega)
  simp only [areFingersTogether, h8, h12, bind, Except.bind, pure,
    Except.pure]
  exact ⟨_, rfl⟩

/-- `isHShape` cannot throw on a complete hand. -/
lemma isHShape_total (l : List Pt) (h : 21 ≤ l.length) :
    ∃ b, isHShape l = .ok b := by
  simp only [isHShape]
  exact areFingersTogether_total l h

/-- `isEShape` cannot throw on a complete hand. -/
lemma isEShape_total (l : List Pt) (h : 21 ≤ l.length) :
    ∃ b, isEShape l = .ok b := by
  obtain ⟨p4, h4⟩ := kp_ok l 4 (by omega)
  obtain ⟨p8, h8⟩ := kp_ok l 8 (by omega)
  obtain ⟨p12, h12⟩ := kp_ok l 12 (by omega)
  obtain ⟨p16, h16⟩ := kp_ok l 16 (by omega)
  obtain ⟨p20, h20⟩ := kp_ok l 20 (by omega)
  obtain ⟨bt, hbt⟩ := isThumbAcrossPalm_total l h
  simp only [isEShape, h4, h8, h12, h16, h20, hbt, bind, Except.bind, pure,
    Except.pure]
  exact ⟨_, rfl⟩

/-- `isGShape` cannot throw on a complete hand. -/
lemma isGShape_total (l : List Pt) (h : 21 ≤ l.length) (a b : Bool) :
    ∃ bb, isGShape l a b = .ok bb := by
  unfold isGShape
  split_ifs
  · exact ⟨false, rfl⟩
  · obtain ⟨p8, h8⟩ := kp_ok l 8 (by omega)
    obtain ⟨p5, h5⟩ := kp_ok l 5 (by omega)
    obtain ⟨p4, h4⟩ := kp_ok l 4 (by omega)
    simp only [h8, h5, h4, bind, Except.bind, pure, Except.pure]
    exact ⟨_, rfl⟩

/-- `isRShape` cannot throw on a complete hand. -/
lemma isRShape_total (l : List Pt) (h : 21 ≤ l.length) (a b : Bool) :
    ∃ bb, isRShape l a b = .ok bb := by
  unfold isRShape
  split_ifs
  · exact ⟨false, rfl⟩
  · obtain ⟨p8, h8⟩ := kp_ok l 8 (by omega)
    obtain ⟨p12, h12⟩ := kp_ok l 12 (by omega)
    simp only [h8, h12, bind, Except.bind, pure, Except.pure]
    exact ⟨_, rfl⟩

/-- `isXShape` cannot throw on a complete hand. -/
lemma isXShape_total (l : List Pt) (h : 21 ≤ l.length) (a : Bool) :
    ∃ bb, isXShape l a = .ok bb := by
  unfold isXShape
  split_ifs
  · obtain ⟨p8, h8⟩ := kp_ok l 8 (by omega)
    obtain ⟨p6, h6⟩ := kp_ok l 6 (by omega)
    obtain ⟨p5, h5⟩ := kp_ok l 5 (by omega)
    simp only [h8, h6, h5, bind, Except.bind, pure, Except.pure]
    exact ⟨_, rfl⟩
  · exact ⟨false, rfl⟩

/-!
Totality of the letter cascade on complete hands: each link either
returns a letter or falls through, and every shape helper succeeds when
all 21 keypoints are present, so the cascade never throws.
-/

lemma aslZ_total (l : List Pt) (h : 21 ≤ l.length)
    (thumbExt indexExt middleExt ringExt pinkyExt tap : Bool) :
    ∃ g, aslZ l thumbExt indexExt middleExt ringExt pinkyExt tap = .ok g := by
  unfold aslZ
  split_ifs <;> exact ⟨_, rfl⟩

lemma aslY_total (l : List Pt) (h : 21 ≤ l.length)
    (thumbExt indexExt middleExt ringExt pinkyExt tap : Bool) :
    ∃ g, aslY l thumbExt indexExt middleExt ringExt pinkyExt tap = .ok g := by
  unfold aslY
  split_ifs
  · exact ⟨_, rfl⟩
  · exact aslZ_total l h thumbExt indexExt middleExt ringExt pinkyExt tap

lemma aslX_total (l : List Pt) (h : 21 ≤ l.length)
    (thumbExt indexExt middleExt ringExt pinkyExt tap : Bool) :
    ∃ g, aslX l thumbExt indexExt middleExt ringExt pinkyExt tap = .ok g := by
  obtain ⟨b, hb⟩ := isXShape_total l h indexExt
  simp only [aslX, hb, bind, Except.bind]
  split_ifs <;>
    first
      | exact ⟨_, rfl⟩
      | exact aslY_total l h thumbExt indexExt middleExt ringExt pinkyExt tap

lemma aslW_total (l : List Pt) (h : 21 ≤ l.length)
    (thumbExt indexExt middleExt ringExt pinkyExt tap : Bool) :
    ∃ g, aslW l thumbExt indexExt middleExt ringExt pinkyExt tap = .ok g := by
  unfold aslW
  split_ifs
  · exact ⟨_, rfl⟩
  · exact aslX_total l h thumbExt indexExt middleExt ringExt pinkyExt tap

lemma aslV_total (l : List Pt) (h : 21 ≤ l.length)
    (thumbExt indexExt middleExt ringExt pinkyExt tap : Bool) :
    ∃ g, aslV l thumbExt indexExt middleExt ringExt pinkyExt tap = .ok g := by
  obtain ⟨b, hb⟩ := areFingersTogether_total l h
  simp only [aslV, hb, bind, Except.bind]
  split_ifs <;>
    first
      | exact ⟨_, rfl⟩
      | exact aslW_total l h thumbExt indexExt middleExt ringExt pinkyExt tap

lemma aslU_total (l : List Pt) (h : 21 ≤ l.length)
    (thumbExt indexExt middleExt ringExt pinkyExt tap : Bool) :
    ∃ g, aslU l thumbExt indexExt middleExt ringExt pinkyExt tap = .ok g := by
  obtain ⟨b, hb⟩ := areFingersTogether_total l h
  simp only [aslU, hb, bind, Except.bind]
  split_ifs <;>
    first
      | exact ⟨_, rfl⟩
      | exact aslV_total l h thumbExt indexExt middleExt ringExt pinkyExt tap

lemma aslT_total (l : List Pt) (h : 21 ≤ l.length)
    (thumbExt indexExt middleExt ringExt pinkyExt tap : Bool) :
    ∃ g, aslT l thumbExt indexExt middleExt ringExt pinkyExt tap = .ok g := by
  obtain ⟨b, hb⟩ := isTShape_total l h
  simp only [aslT, hb, bind, Except.bind]
  split_ifs <;>
    first
      | exact ⟨_, rfl⟩
      | exact aslU_total l h thumbExt indexExt middleExt ringExt pinkyExt tap

lemma aslS2_total (l : List Pt) (h : 21 ≤ l.length)
    (thumbExt indexExt middleExt ringExt pinkyExt tap : Bool) :
    ∃ g, aslS2 l thumbExt indexExt middleExt ringExt pinkyExt tap = .ok g := by
  obtain ⟨b, hb⟩ := isThumbInFront_total l h
  simp only [aslS2, hb, bind, Except.bind]
  split_ifs <;>
    first
      | exact ⟨_, rfl⟩
      | exact aslT_total l h thumbExt indexExt middleExt ringExt pinkyExt tap

lemma aslR_total (l : List Pt) (h : 21 ≤ l.length)
    (thumbExt indexExt middleExt ringExt pinkyExt tap : Bool) :
    ∃ g, aslR l thumbExt indexExt middleExt ringExt pinkyExt tap = .ok g := by
  obtain ⟨b, hb⟩ := isRShape_total l h indexExt middleExt
  simp only [aslR, hb, bind, Except.bind]
  split_ifs <;>
    first
      | exact ⟨_, rfl⟩
      | exact aslS2_total l h thumbExt indexExt middleExt ringExt pinkyExt tap

lemma aslO_total (l : List Pt) (h : 21 ≤ l.length)
    (thumbExt indexExt middleExt ringExt pinkyExt tap : Bool) :
    ∃ g, aslO l thumbExt indexExt middleExt ringExt pinkyExt tap = .ok g := by
  obtain ⟨b, hb⟩ := isOShape_total l h
  simp only [aslO, hb, bind, Except.bind]
  split_ifs <;>
    first
      | exact ⟨_, rfl⟩
      | exact aslR_total l h thumbExt indexExt middleExt ringExt pinkyExt tap

lemma aslC_total (l : List Pt) (h : 21 ≤ l.length)
    (thumbExt indexExt middleExt ringExt pinkyExt tap : Bool) :
    ∃ g, aslC l thumbExt indexExt middleExt ringExt pinkyExt tap = .ok g := by
  obtain ⟨b, hb⟩ := isCShape_total l h
  simp only [aslC, hb, bind, Except.bind]
  split_ifs <;>
    first
      | exact ⟨_, rfl⟩
      | exact aslO_total l h thumbExt indexExt middleExt ringExt pinkyExt tap

lemma aslN_total (l : List Pt) (h : 21 ≤ l.length)
    (thumbExt indexExt middleExt ringExt pinkyExt tap : Bool) :
    ∃ g, aslN l thumbExt indexExt middleExt ringExt pinkyExt tap = .ok g := by
  obtain ⟨b, hb⟩ := isNShape_total l h
  simp only [aslN, hb, bind, Except.bind]
  split_ifs <;>
    first
      | exact ⟨_, rfl⟩
      | exact aslC_total l h thumbExt indexExt middleExt ringExt pinkyExt tap

lemma aslL_total (l : List Pt) (h : 21 ≤ l.length)
    (thumbExt indexExt middleExt ringExt pinkyExt tap : Bool) :
    ∃ g, aslL l thumbExt indexExt middleExt ringExt pinkyExt tap = .ok g := by
  obtain ⟨b, hb⟩ := isLShape_total l h
  simp only [aslL, hb, bind, Except.bind]
  split_ifs <;>
    first
      | exact ⟨_, rfl⟩
      | exact aslN_total l h thumbExt indexExt middleExt ringExt pinkyExt tap

lemma aslI_total (l : List Pt) (h : 21 ≤ l.length)
    (thumbExt indexExt middleExt ringExt pinkyExt tap : Bool) :
    ∃ g, aslI l thumbExt indexExt middleExt ringExt pinkyExt tap = .ok g := by
  unfold aslI
  split_ifs
  · exact ⟨_, rfl⟩
  · exact aslL_total l h thumbExt indexExt middleExt ringExt pinkyExt tap

lemma aslK_total (l : List Pt) (h : 21 ≤ l.length)
    (thumbExt indexExt middleExt ringExt pinkyExt tap : Bool) :
    ∃ g, aslK l thumbExt indexExt middleExt ringExt pinkyExt tap = .ok g := by
  obtain ⟨b, hb⟩ := isKShape_total l h
  simp only [aslK, hb, bind, Except.bind]
  split_ifs <;>
    first
      | exact ⟨_, rfl⟩
      | exact aslI_total l h thumbExt indexExt middleExt ringExt pinkyExt tap

lemma aslP_total (l : List Pt) (h : 21 ≤ l.length)
    (thumbExt indexExt middleExt ringExt pinkyExt tap : Bool) :
    ∃ g, aslP l thumbExt indexExt middleExt ringExt pinkyExt tap = .ok g := by
  obtain ⟨b, hb⟩ := isPShape_total l h
  simp only [aslP, hb, bind, Except.bind]
  split_ifs <;>
    first
      | exact ⟨_, rfl⟩
      | exact aslK_total l h thumbExt indexExt middleExt ringExt pinkyExt tap

lemma aslG_total (l : List Pt) (h : 21 ≤ l.length)
    (thumbExt indexExt middleExt ringExt pinkyExt tap : Bool) :
    ∃ g, aslG l thumbExt indexExt middleExt ringExt pinkyExt tap = .ok g := by
  obtain ⟨b, hb⟩ := isGShape_total l h indexExt thumbExt
  simp only [aslG, hb, bind, Except.bind]
  split_ifs <;>
    first
      | exact ⟨_, rfl⟩
      | exact aslP_total l h thumbExt indexExt middleExt ringExt pinkyExt tap

lemma aslQ_total (l : List Pt) (h : 21 ≤ l.length)
    (thumbExt indexExt middleExt ringExt pinkyExt tap : Bool) :
    ∃ g, aslQ l thumbExt indexExt middleExt ringExt pinkyExt tap = .ok g := by
  obtain ⟨b, hb⟩ := isQShape_total l h
  simp only [aslQ, hb, bind, Except.bind]
  split_ifs <;>
    first
      | exact ⟨_, rfl⟩
      | exact aslG_total l h thumbExt indexExt middleExt ringExt pinkyExt tap

lemma aslH_total (l : List Pt) (h : 21 ≤ l.length)
    (thumbExt indexExt middleExt ringExt pinkyExt tap : Bool) :
    ∃ g, aslH l thumbExt indexExt middleExt ringExt pinkyExt tap = .ok g := by
  obtain ⟨b, hb⟩ := isHShape_total l h
  simp only [aslH, hb, bind, Except.bind]
  split_ifs <;>
    first
      | exact ⟨_, rfl⟩
      | exact aslQ_total l h thumbExt indexExt middleExt ringExt pinkyExt tap

lemma aslF_total (l : List Pt) (h : 21 ≤ l.length)
    (thumbExt indexExt middleExt ringExt pinkyExt tap : Bool) :
    ∃ g, aslF l thumbExt indexExt middleExt ringExt pinkyExt tap = .ok g := by
  obtain ⟨b, hb⟩ := isFShape_total l h
  simp only [aslF, hb, bind, Except.bind]
  split_ifs <;>
    first
      | exact ⟨_, rfl⟩
      | exact aslH_total l h thumbExt indexExt middleExt ringExt pinkyExt tap

lemma aslB_total (l : List Pt) (h : 21 ≤ l.length)
    (thumbExt indexExt middleExt ringExt pinkyExt tap : Bool) :
    ∃ g, aslB l thumbExt indexExt middleExt ringExt pinkyExt tap = .ok g := by
  unfold aslB
  split_ifs
  · exact ⟨_, rfl⟩
  · exact aslF_total l h thumbExt indexExt middleExt ringExt pinkyExt tap

lemma aslD_total (l : List Pt) (h : 21 ≤ l.length)
    (thumbExt indexExt middleExt ringExt pinkyExt tap : Bool) :
    ∃ g, aslD l thumbExt indexExt middleExt ringExt pinkyExt tap = .ok g := by
  obtain ⟨b, hb⟩ := isDShape_total l h
  simp only [aslD, hb, bind, Except.bind]
  split_ifs <;>
    first
      | exact ⟨_, rfl⟩
      | exact aslB_total l h thumbExt indexExt middleExt ringExt pinkyExt tap

lemma detectASLLetter_total (l : List Pt) (h : 21 ≤ l.length)
    (thumbExt indexExt middleExt ringExt pinkyExt : Bool) :
    ∃ g, detectASLLetter l thumbExt indexExt middleExt ringExt pinkyExt
      = .ok g := by
  obtain ⟨tap, htap⟩ := isThumbAcrossPalm_total l h
  obtain ⟨tts, htts⟩ := isThumbToSide_total l h
  obtain ⟨ttf, httf⟩ := isThumbTouchingFingers_total l h
  obtain ⟨m, hm⟩ := isMShape_total l h
  obtain ⟨e, he⟩ := isEShape_total l h
  obtain ⟨sf, hsf⟩ := isThumbInFront_total l h
  simp only [detectASLLetter, htap, htts, httf, hm, he, hsf, bind,
    Except.bind]
  split_ifs <;>
    first
      | exact ⟨_, rfl⟩
      | exact aslD_total l h thumbExt indexExt middleExt ringExt pinkyExt tap

/-- The 3D conversion is length-preserving. -/
lemma convertKeypoints3D_length (pts : List Pt) :
    (convertKeypoints3D pts).length = pts.length := by
  simp [convertKeypoints3D]

/-- `ratSqrt` at the perfect square 22500. -/
lemma ratSqrt_22500 : ratSqrt (22500 : ℚ) = 150 := by
  have hnum : (22500 : ℚ).num = 22500 := by norm_num
  have hden : (22500 : ℚ).den = 1 := by norm_num
  simp only [ratSqrt, hnum, hden]
  rw [if_neg (by norm_num)]
  rw [show (22500 : ℤ).toNat * 1 = 22500 from rfl]
  rw [show sqrtFuel 64 22500 = 150 from by decide]
  norm_num

/-- `ratSqrt` at the perfect square 14400. -/
lemma ratSqrt_14400 : ratSqrt (14400 : ℚ) = 120 := by
  have hnum : (14400 : ℚ).num = 14400 := by norm_num
  have hden : (14400 : ℚ).den = 1 := by norm_num
  simp only [ratSqrt, hnum, hden]
  rw [if_neg (by norm_num)]
  rw [show (14400 : ℤ).toNat * 1 = 14400 from rfl]
  rw [show sqrtFuel 64 14400 = 120 from by decide]
  norm_num

/-!
## Evaluation of the shape helpers on the concrete unmatched hand
-/

lemma kp_nm_0 : kp noMatchHand 0 = .ok ⟨100, 300, 0⟩ := rfl

lemma kp_nm_2 : kp noMatchHand 2 = .ok ⟨40, 280, 0⟩ := rfl

lemma kp_nm_4 : kp noMatchHand 4 = .ok ⟨10, 280, 0⟩ := rfl

lemma kp_nm_5 : kp noMatchHand 5 = .ok ⟨80, 250, 0⟩ := rfl

lemma kp_nm_6 : kp noMatchHand 6 = .ok ⟨80, 200, 0⟩ := rfl

lemma kp_nm_8 : kp noMatchHand 8 = .ok ⟨80, 100, 0⟩ := rfl

lemma kp_nm_9 : kp noMatchHand 9 = .ok ⟨105, 250, 0⟩ := rfl

lemma kp_nm_12 : kp noMatchHand 12 = .ok ⟨105, 100, 0⟩ := rfl

lemma kp_nm_13 : kp noMatchHand 13 = .ok ⟨130, 250, 0⟩ := rfl

lemma kp_nm_16 : kp noMatchHand 16 = .ok ⟨130, 100, 0⟩ := rfl

lemma kp_nm_17 : kp noMatchHand 17 = .ok ⟨155, 250, 0⟩ := rfl

lemma kp_nm_20 : kp noMatchHand 20 = .ok ⟨155, 130, 0⟩ := rfl

/-- The unmatched hand does not hold the thumb across the palm. -/
lemma tap_nm : isThumbAcrossPalm noMatchHand = .ok false := by
  simp only [isThumbAcrossPalm, kp_nm_4, kp_nm_0, kp_nm_5, kp_nm_9, bind,
    Except.bind, pure, Except.pure, Except.ok.injEq]
  rw [decide_eq_false_iff_not]
  norm_num [jsAbs]

/-- The unmatched hand holds the thumb to the side. -/
lemma tside_nm : isThumbToSide noMatchHand = .ok true := by
  simp only [isThumbToSide, kp_nm_4, kp_nm_5, kp_nm_0, bind,
    Except.bind, pure, Except.pure, Except.ok.injEq, decide_eq_true_eq]
  norm_num [jsAbs]

/-- The unmatched hand's thumb does not touch the middle finger. -/
lemma ttf_nm : isThumbTouchingFingers noMatchHand = .ok false := by
  simp only [isThumbTouchingFingers, kp_nm_4, kp_nm_12, bind,
    Except.bind, pure, Except.pure, Except.ok.injEq]
  rw [decide_eq_false_iff_not]
  norm_num [dist2]

/-- The unmatched hand's spread index and middle fingers do satisfy the
`K`-shape window (the cascade still rejects `K` because the ring and pinky
are extended). -/
lemma kshape_nm : isKShape noMatchHand = .ok true := by
  simp only [isKShape, kp_nm_8, kp_nm_5, kp_nm_12, kp_nm_9, bind,
    Except.bind, pure, Except.pure, Except.ok.injEq, Bool.and_eq_true,
    decide_eq_true_eq]
  refine ⟨?_, ?_, ?_⟩
  · norm_num [jsAbs]
  · simp only [dirKWindow, decide_eq_true_eq, tan10Apx]
    norm_num
  · simp only [dirKWindow, decide_eq_true_eq, tan10Apx]
    norm_num

/-- The unmatched hand is not a `C` shape: its fingers are too straight
(average extension 142.5 > 45). -/
lemma cshape_nm : isCShape noMatchHand = .ok false := by
  simp only [isCShape, kp_nm_8, kp_nm_12, kp_nm_16, kp_nm_20, kp_nm_5,
    kp_nm_9, kp_nm_13, kp_nm_17, kp_nm_4, bind, Except.bind, pure,
    Except.pure, Except.ok.injEq]
  have h1 : distApx ⟨80, 100, 0⟩ ⟨80, 250, 0⟩ = 150 := by
    rw [distApx, show dist2 (⟨80, 100, 0⟩ : Pt) ⟨80, 250, 0⟩ = 22500 from by
      norm_num [dist2], ratSqrt_22500]
  have h2 : distApx ⟨105, 100, 0⟩ ⟨105, 250, 0⟩ = 150 := by
    rw [distApx, show dist2 (⟨105, 100, 0⟩ : Pt) ⟨105, 250, 0⟩ = 22500 from by
      norm_num [dist2], ratSqrt_22500]
  have h3 : distApx ⟨130, 100, 0⟩ ⟨130, 250, 0⟩ = 150 := by
    rw [distApx, show dist2 (⟨130, 100, 0⟩ : Pt) ⟨130, 250, 0⟩ = 22500 from by
      norm_num [dist2], ratSqrt_22500]
  have h4 : distApx ⟨155, 130, 0⟩ ⟨155, 250, 0⟩ = 120 := by
    rw [distApx, show dist2 (⟨155, 130, 0⟩ : Pt) ⟨155, 250, 0⟩ = 14400 from by
      norm_num [dist2], ratSqrt_14400]
  simp only [h1, h2, h3, h4]
  rw [Bool.and_eq_false_iff]
  left
  rw [decide_eq_false_iff_not]
  norm_num

/-- The unmatched hand's thumb and index tip are far apart (no `O`). -/
lemma oshape_nm : isOShape noMatchHand = .ok false := by
  simp only [isOShape, kp_nm_4, kp_nm_8, bind, Except.bind, pure,
    Except.pure, Except.ok.injEq]
  rw [decide_eq_false_iff_not]
  norm_num [dist2]

/-- The unmatched hand's index and middle tips are 25 px apart (no `R`). -/
lemma rshape_nm : isRShape noMatchHand true true = .ok false := by
  simp only [isRShape]
  rw [if_neg (by simp)]
  simp only [kp_nm_8, kp_nm_12, bind, Except.bind, pure, Except.pure,
    Except.ok.injEq]
  rw [decide_eq_false_iff_not]
  norm_num [jsAbs]

/-- The unmatched hand's thumb tip is outside the index/middle base span
(no `T`). -/
lemma tshape_nm : isTShape noMatchHand = .ok false := by
  simp only [isTShape, kp_nm_4, kp_nm_5, kp_nm_9, bind, Except.bind, pure,
    Except.pure, Except.ok.injEq]
  rw [decide_eq_false_iff_not]
  norm_num [jsMin, jsMax]

/-- The unmatched hand's index finger is straight, not hooked (no `X`). -/
lemma xshape_nm : isXShape noMatchHand true = .ok false := by
  simp only [isXShape]
  rw [if_neg (by simp)]
  simp only [kp_nm_8, kp_nm_6, kp_nm_5, bind, Except.bind, pure,
    Except.pure, Except.ok.injEq]
  rw [decide_eq_false_iff_not]
  norm_num [dist2]

/-- All five fingers of the unmatched hand count as extended. -/
lemma fext_thumb_nm : isFingerExtended noMatchHand "thumb" = true := by
  have ht : noMatchHand.get? 4 = some ⟨10, 280, 0⟩ := rfl
  have hb : noMatchHand.get? 2 = some ⟨40, 280, 0⟩ := rfl
  simp only [isFingerExtended, fingerTipIdx, fingerBaseIdx, ht, hb]
  rw [if_true, decide_eq_true_eq]
  norm_num [dist2]

lemma fext_index_nm : isFingerExtended noMatchHand "index" = true := by
  have ht : noMatchHand.get? 8 = some ⟨80, 100, 0⟩ := rfl
  have hb : noMatchHand.get? 5 = some ⟨80, 250, 0⟩ := rfl
  simp only [isFingerExtended, fingerTipIdx, fingerBaseIdx, ht, hb]
  rw [if_neg (by decide), decide_eq_true_eq]
  norm_num [dist2]

lemma fext_middle_nm : isFingerExtended noMatchHand "middle" = true := by
  have ht : noMatchHand.get? 12 = some ⟨105, 100, 0⟩ := rfl
  have hb : noMatchHand.get? 9 = some ⟨105, 250, 0⟩ := rfl
  simp only [isFingerExtended, fingerTipIdx, fingerBaseIdx, ht, hb]
  rw [if_neg (by decide), decide_eq_true_eq]
  norm_num [dist2]

lemma fext_ring_nm : isFingerExtended noMatchHand "ring" = true := by
  have ht : noMatchHand.get? 16 = some ⟨130, 100, 0⟩ := rfl
  have hb : noMatchHand.get? 13 = some ⟨130, 250, 0⟩ := rfl
  simp only [isFingerExtended, fingerTipIdx, fingerBaseIdx, ht, hb]
  rw [if_neg (by decide), decide_eq_true_eq]
  norm_num [dist2]

lemma fext_pinky_nm : isFingerExtended noMatchHand "pinky" = true := by
  have ht : noMatchHand.get? 20 = some ⟨155, 130, 0⟩ := rfl
  have hb : noMatchHand.get? 17 = some ⟨155, 250, 0⟩ := rfl
  simp only [isFingerExtended, fingerTipIdx, fingerBaseIdx, ht, hb]
  rw [if_neg (by decide), decide_eq_true_eq]
  norm_num [dist2]

/-!
Walking the cascade on the unmatched hand with all five fingers extended:
every check falls through and the result is `'unknown'`.
-/

lemma aslZ_nm : aslZ noMatchHand true true true true true false
    = .ok "unknown" := by
  simp [aslZ]

lemma aslY_nm : aslY noMatchHand true true true true true false
    = .ok "unknown" := by
  simp only [aslY]
  rw [if_neg (by simp)]
  exact aslZ_nm

lemma aslX_nm : aslX noMatchHand true true true true true false
    = .ok "unknown" := by
  simp only [aslX, xshape_nm, bind, Except.bind]
  rw [if_neg (by simp)]
  exact aslY_nm

lemma aslW_nm : aslW noMatchHand true true true true true false
    = .ok "unknown" := by
  simp only [aslW]
  rw [if_neg (by simp)]
  exact aslX_nm

lemma aslV_nm : aslV noMatchHand true true true true true false
    = .ok "unknown" := by
  simp only [aslV]
  rw [if_neg (by simp)]
  exact aslW_nm

lemma aslU_nm : aslU noMatchHand true true true true true false
    = .ok "unknown" := by
  simp only [aslU]
  rw [if_neg (by simp)]
  exact aslV_nm

lemma aslT_nm : aslT noMatchHand true true true true true false
    = .ok "unknown" := by
  simp only [aslT, tshape_nm, bind, Except.bind]
  rw [if_neg (by simp)]
  exact aslU_nm

lemma aslS2_nm : aslS2 noMatchHand true true true true true false
    = .ok "unknown" := by
  simp only [aslS2]
  rw [if_neg (by simp)]
  exact aslT_nm

lemma aslR_nm : aslR noMatchHand true true true true true false
    = .ok "unknown" := by
  simp only [aslR, rshape_nm, bind, Except.bind]
  rw [if_neg (by simp)]
  exact aslS2_nm

lemma aslO_nm : aslO noMatchHand true true true true true false
    = .ok "unknown" := by
  simp only [aslO, oshape_nm, bind, Except.bind]
  rw [if_neg (by simp)]
  exact aslR_nm

lemma aslC_nm : aslC noMatchHand true true true true true false
    = .ok "unknown" := by
  simp only [aslC, cshape_nm, bind, Except.bind]
  rw [if_neg (by simp)]
  exact aslO_nm

lemma aslN_nm : aslN noMatchHand true true true true true false
    = .ok "unknown" := by
  simp only [aslN]
  rw [if_neg (by simp)]
  exact aslC_nm

lemma aslL_nm : aslL noMatchHand true true true true true false
    = .ok "unknown" := by
  simp only [aslL]
  rw [if_neg (by simp)]
  exact aslN_nm

lemma aslI_nm : aslI noMatchHand true true true true true false
    = .ok "unknown" := by
  simp only [aslI]
  rw [if_neg (by simp)]
  exact aslL_nm

lemma aslK_nm : aslK noMatchHand true true true true true false
    = .ok "unknown" := by
  simp only [aslK, kshape_nm, bind, Except.bind]
  rw [if_neg (by simp)]
  exact aslI_nm

lemma aslP_nm : aslP noMatchHand true true true true true false
    = .ok "unknown" := by
  simp only [aslP]
  rw [if_neg (by simp)]
  exact aslK_nm

lemma aslG_nm : aslG noMatchHand true true true true true false
    = .ok "unknown" := by
  simp only [aslG]
  rw [if_neg (by simp)]
  exact aslP_nm

lemma aslQ_nm : aslQ noMatchHand true true true true true false
    = .ok "unknown" := by
  simp only [aslQ]
  rw [if_neg (by simp)]
  exact aslG_nm

lemma aslH_nm : aslH noMatchHand true true true true true false
    = .ok "unknown" := by
  simp only [aslH]
  rw [if_neg (by simp)]
  exact aslQ_nm

lemma aslF_nm : aslF noMatchHand true true true true true false
    = .ok "unknown" := by
  simp only [aslF]
  rw [if_neg (by simp)]
  exact aslH_nm

lemma aslB_nm : aslB noMatchHand true true true true true false
    = .ok "unknown" := by
  simp only [aslB]
  rw [if_neg (by simp)]
  exact aslF_nm

lemma aslD_nm : aslD noMatchHand true true true true true false
    = .ok "unknown" := by
  simp only [aslD]
  rw [if_neg (by simp)]
  exact aslB_nm

/-- On the unmatched hand with every finger extended the full cascade
reaches the `'unknown'` fall-through. -/
lemma detectASLLetter_nm :
    detectASLLetter noMatchHand true true true true true = .ok "unknown" := by
  simp only [detectASLLetter, tap_nm, tside_nm, ttf_nm, bind, Except.bind]
  rw [if_neg (by simp)]
  exact aslD_nm

/-- Storing a 2D keypoint with zero pixel fields and then applying the
`kp.xPixel || kp.x` selection returns the original keypoints unchanged. -/
lemma pixelRoundTrip (l : List Pt) :
    (l.map (fun p => (⟨p.x, p.y, p.z, 0, 0⟩ : ConvPt))).map
        (fun q => (⟨(if q.xPixel = 0 then q.x else q.xPixel),
          (if q.yPixel = 0 then q.y else q.yPixel), q.z⟩ : Pt)) = l := by
  induction l with
  | nil => rfl
  | cons p t ih =>
    simp only [List.map_cons, ih, List.cons.injEq, and_true]
    rw [if_true, if_true]

/-- On a hand carrying only 2D keypoints, `classifyGesture` takes the 2D
fallback branch: the pixel selection reproduces the raw keypoints and the
cascade runs on them with the five freshly computed extension flags. -/
lemma classifyGesture_2d (kps : List Pt) (hne : 0 < kps.length) :
    classifyGesture [⟨[], kps⟩] =
      detectASLLetter kps (isFingerExtended kps "thumb")
        (isFingerExtended kps "index") (isFingerExtended kps "middle")
        (isFingerExtended kps "ring") (isFingerExtended kps "pinky") := by
  simp only [classifyGesture]
  rw [if_neg (by simp), if_pos (by simpa using hne)]
  simp only [List.length_map]
  rw [if_neg (by omega)]
  rw [pixelRoundTrip]

/-- The 2D fallback on the unmatched hand yields `'unknown'`. -/
lemma classify_nm : classifyGesture [⟨[], noMatchHand⟩] = .ok "unknown" := by
  rw [classifyGesture_2d noMatchHand (by decide), fext_thumb_nm,
    fext_index_nm, fext_middle_nm, fext_ring_nm, fext_pinky_nm]
  exact detectASLLetter_nm

/-- A complete 3D hand is classified without throwing. -/
lemma classifyGesture_3d_total (hand : Hand) (rest : List Hand)
    (h : 21 ≤ hand.keypoints3D.length) :
    ∃ g, classifyGesture (hand :: rest) = .ok g := by
  simp only [classifyGesture]
  rw [if_pos (by omega)]
  simp only [List.length_map, convertKeypoints3D_length]
  rw [if_neg (by omega)]
  exact detectASLLetter_total _
    (by rw [List.length_map, convertKeypoints3D_length]; exact h) _ _ _ _ _

/-!
## Claim about classifier totality
-/

/-- Claim C9, counterexample: classification is *not* total on every
landmark input — a present hand with a single (2D) keypoint makes the
classifier throw (`keypoints[4]` is `undefined` and dereferencing it raises
a `TypeError`), rather than degrading to `'unknown'` or `'none'`. -/
theorem C9_throw_cex :
    classifyGesture [⟨[], [⟨0, 0, 0⟩]⟩] = .error () := rfl

/-- Claim C9 (amended): with no hands the classifier returns `'none'`; a
hand with empty keypoint lists returns `'none'`; a hand with a complete
21-point 3D landmark list never throws; and a complete hand matching no
shape predicate falls through to `'unknown'`. -/
theorem C9_classifier_amended :
    classifyGesture [] = .ok "none" ∧
    (∀ rest : List Hand, classifyGesture (⟨[], []⟩ :: rest) = .ok "none") ∧
    (∀ (hand : Hand) (rest : List Hand), 21 ≤ hand.keypoints3D.length →
      ∃ g, classifyGesture (hand :: rest) = .ok g) ∧
    classifyGesture [⟨[], noMatchHand⟩] = .ok "unknown" :=
  ⟨rfl, fun _ => rfl, classifyGesture_3d_total, classify_nm⟩

/-- Witness for the amended C9: the concrete 21-point unmatched hand taken
as a 3D hand is classified without throwing. -/
theorem C9_classifier_witness :
    21 ≤ (Hand.mk noMatchHand []).keypoints3D.length ∧
    ∃ g, classifyGesture [Hand.mk noMatchHand []] = .ok g :=
  ⟨by decide,
   C9_classifier_amended.2.2.1 (Hand.mk noMatchHand []) [] (by decide)⟩

/-- Witness for C8: the two-letter word `'hi'` is below the length gate and
gets no fuzzy correction, and the fuzzy pass data for `'freind'` ↦
`'friend'` is exhibited. -/
theorem C8_fuzzy_pass_witness :
    ((str "hi").length < 3 ∧ findClosestWord (str "hi") = none) ∧
    ∃ p ∈ fuzzyCandidates, p.2 = str "friend" ∧
      levenshteinDistance (str "freind") p.1
        ≤ maxDistanceFor (str "freind").length ∧
      ∀ q ∈ fuzzyCandidates,
        levenshteinDistance (str "freind") q.1
          ≤ maxDistanceFor (str "freind").length →
        levenshteinDistance (str "freind") p.1
          ≤ levenshteinDistance (str "freind") q.1 :=
  ⟨⟨by decide, C8_fuzzy_pass_properties.1 (str "hi") (by decide)⟩,
   C8_fuzzy_pass_properties.2.1 (str "freind") (str "friend") (by decide)⟩
